import Mathlib

/-!
# CDN-Manager reconciliation core: a shallow embedding

This file embeds the Distribution reconciliation core of the CDN-Manager
repository in Lean 4 and proves properties of it.

Each definition is transliterated from one Go source function (named in its
doc comment).  Remote AWS interactions are modelled by "world" records that
fix, for one pass, the response every remote call would receive; the
functions additionally return the list of remote calls they issued so that
theorems can speak about which calls a pass performs.  Mutation of the
shared `DistributionStatus` is modelled by explicit state passing.
-/

/-! ## Data model (`pkg/api/v1alpha1`, `pkg/provider/cloudfront/api/v1alpha1`) -/

/-- `CloudFrontStatus` (cloudfront_types.go): state, distribution id, and the
ACM certificate ARN recorded on a Distribution's status. -/
structure CloudFrontStatus where
  state : String
  id : String
  certificateArn : String
deriving DecidableEq, Repr

/-- `Endpoint` (distribution_types.go): one endpoint record in a
Distribution's status. -/
structure Endpoint where
  provider : String
  host : String
  ip : String
deriving DecidableEq, Repr

/-- `DistributionStatus` (distribution_types.go), in the era of the
reconciler under verification: `CloudFront` is a value field (the cited
provider code reads and writes `Status.CloudFront.ID` etc. without nil
checks). -/
structure DistributionStatus where
  ready : Bool
  endpoints : List Endpoint
  cloudFront : CloudFrontStatus
deriving DecidableEq, Repr

/-- `TLSSpec` (distribution_types.go): TLS mode and certificate secret name. -/
structure TLSSpec where
  mode : String
  secretRef : String
deriving DecidableEq, Repr

/-- `Origin` (distribution_types.go, newest era): plain host and numeric
ports, as read by `generateDistributionConfig`. -/
structure OriginSpec where
  host : String
  httpPort : Int
  httpsPort : Int
deriving DecidableEq, Repr

/-- `DistributionSpec` (distribution_types.go): the fields the provider and
engine read. -/
structure DistributionSpec where
  origin : OriginSpec
  hosts : List String
  tls : Option TLSSpec
deriving DecidableEq, Repr

/-- Object metadata: unique id, whether deletion has been requested
(`DeletionTimestamp` non-zero) and the finalizer list. -/
structure ObjectMeta where
  uid : String
  deletionRequested : Bool
  finalizers : List String
deriving DecidableEq, Repr

/-- `Distribution` (distribution_types.go): metadata, spec and status. -/
structure Distribution where
  meta : ObjectMeta
  spec : DistributionSpec
  status : DistributionStatus
deriving DecidableEq, Repr

/-- `CloudFrontSpec` (cloudfront_types.go): class-level provider settings. -/
structure CloudFrontSpec where
  sslMode : String
  cachePolicyId : String
  originRequestPolicyId : String
  supportedMethods : List String
deriving DecidableEq, Repr

/-- `ProviderList` (distributionclass_types.go). -/
structure ProviderList where
  cloudFront : Option CloudFrontSpec
deriving DecidableEq, Repr

/-- `DistributionClassSpec` (distributionclass_types.go). -/
structure DistributionClassSpec where
  providers : ProviderList
deriving DecidableEq, Repr

/-! ## Allowed/cached method calculation
(`DistributionProvider.calculateMethods`, distribution.go) -/

/-- The loop body of `calculateMethods`: walks the class's supported-methods
list, appending `"OPTIONS"` to the running method list on every `"OPTIONS"`
entry and returning the full six-method allowed list with the fixed
three-method cached list as soon as one of `"POST"`, `"PUT"`, `"DELETE"` is
seen. -/
def calcMethodsLoop (methods : List String) : List String → List String × List String
  | [] => (methods, methods)
  | header :: rest =>
    if header == "OPTIONS" then
      calcMethodsLoop (methods ++ ["OPTIONS"]) rest
    else if header == "POST" || header == "PUT" || header == "DELETE" then
      (["HEAD", "GET", "OPTIONS", "POST", "PUT", "DELETE"], ["HEAD", "GET", "OPTIONS"])
    else
      calcMethodsLoop methods rest

/-- `DistributionProvider.calculateMethods` (distribution.go): computes the
(allowed, cached) method lists from the class's `SupportedMethods`,
starting from `["HEAD", "GET"]`. -/
def calculateMethods (supportedMethods : List String) : List String × List String :=
  calcMethodsLoop ["HEAD", "GET"] supportedMethods

/-- A supported-methods entry is "mutating" when it is POST, PUT or DELETE. -/
def isMutating (m : String) : Bool :=
  m == "POST" || m == "PUT" || m == "DELETE"

lemma calcMethodsLoop_no_special (methods : List String) (l : List String)
    (h : ∀ m ∈ l, m ≠ "OPTIONS" ∧ isMutating m = false) :
    calcMethodsLoop methods l = (methods, methods) := by
  induction l generalizing methods with
  | nil => rfl
  | cons a t ih =>
    obtain ⟨ha1, ha2⟩ := h a (List.mem_cons_self a t)
    have hopt : (a == "OPTIONS") = false := by
      simp [ha1]
    have hmut : (a == "POST" || a == "PUT" || a == "DELETE") = false := by
      simpa [isMutating] using ha2
    simp only [calcMethodsLoop, hopt, hmut, Bool.false_eq_true, if_false]
    exact ih methods fun m hm => h m (List.mem_cons_of_mem a hm)

lemma calcMethodsLoop_no_mutating (methods : List String) (l : List String)
    (h : ∀ m ∈ l, isMutating m = false) :
    calcMethodsLoop methods l =
      (methods ++ List.replicate (l.count "OPTIONS") "OPTIONS",
       methods ++ List.replicate (l.count "OPTIONS") "OPTIONS") := by
  induction l generalizing methods with
  | nil => simp [calcMethodsLoop]
  | cons a t ih =>
    have hmut : (a == "POST" || a == "PUT" || a == "DELETE") = false := by
      simpa [isMutating] using h a (List.mem_cons_self a t)
    have ht : ∀ m ∈ t, isMutating m = false := fun m hm => h m (List.mem_cons_of_mem a hm)
    by_cases hopt : a = "OPTIONS"
    · subst hopt
      simp only [calcMethodsLoop, beq_self_eq_true, if_true]
      rw [ih _ ht]
      simp only [List.count_cons, beq_self_eq_true, if_true, List.replicate_succ,
        List.append_assoc]
      constructor
    · have hbeq : (a == "OPTIONS") = false := by simp [hopt]
      simp only [calcMethodsLoop, hbeq, hmut, Bool.false_eq_true, if_false]
      rw [ih _ ht]
      have : (a :: t).count "OPTIONS" = t.count "OPTIONS" := by
        simp [List.count_cons, Ne.symm hopt]
      rw [this]

lemma calcMethodsLoop_mutating (methods : List String) (l : List String)
    (h : ∃ m ∈ l, isMutating m = true) :
    calcMethodsLoop methods l =
      (["HEAD", "GET", "OPTIONS", "POST", "PUT", "DELETE"], ["HEAD", "GET", "OPTIONS"]) := by
  induction l generalizing methods with
  | nil => simp at h
  | cons a t ih =>
    by_cases hmut : isMutating a = true
    · have hcase : a = "POST" ∨ a = "PUT" ∨ a = "DELETE" := by
        have hx := hmut
        simp only [isMutating, Bool.or_eq_true, beq_iff_eq] at hx
        tauto
      have hopt : (a == "OPTIONS") = false := by
        rcases hcase with h1 | h1 | h1 <;> simp [h1]
      have : (a == "POST" || a == "PUT" || a == "DELETE") = true := by
        simpa [isMutating] using hmut
      simp [calcMethodsLoop, hopt, this]
    · obtain ⟨m, hm, hmm⟩ := h
      rcases List.mem_cons.mp hm with rfl | hmt
      · exact absurd hmm hmut
      · by_cases hopt : a = "OPTIONS"
        · subst hopt
          simp only [calcMethodsLoop, beq_self_eq_true, if_true]
          exact ih _ ⟨m, hmt, hmm⟩
        · have hbeq : (a == "OPTIONS") = false := by simp [hopt]
          have hb : (a == "POST" || a == "PUT" || a == "DELETE") = false := by
            simpa [isMutating] using hmut
          simp only [calcMethodsLoop, hbeq, hb, Bool.false_eq_true, if_false]
          exact ih _ ⟨m, hmt, hmm⟩

lemma calcMethodsLoop_cached_not_mutating (methods : List String) (l : List String)
    (h : ∀ m ∈ methods, isMutating m = false) :
    ∀ m ∈ (calcMethodsLoop methods l).2, isMutating m = false := by
  induction l generalizing methods with
  | nil => simpa [calcMethodsLoop] using h
  | cons a t ih =>
    by_cases hopt : (a == "OPTIONS") = true
    · simp only [calcMethodsLoop, hopt, if_true]
      refine ih _ fun m hm => ?_
      rcases List.mem_append.mp hm with h1 | h1
      · exact h m h1
      · simp only [List.mem_singleton] at h1
        simp [h1, isMutating]
    · by_cases hb : (a == "POST" || a == "PUT" || a == "DELETE") = true
      · simp only [calcMethodsLoop, hopt, Bool.false_eq_true, if_false, hb, if_true]
        intro m hm
        simp only [List.mem_cons, List.not_mem_nil, or_false] at hm
        rcases hm with rfl | rfl | rfl <;> rfl
      · simp only [calcMethodsLoop, hopt, hb, Bool.false_eq_true, if_false]
        exact ih _ h

/-- C6 fails as stated: the code appends one `"OPTIONS"` per occurrence, so a
supported-methods list containing `"OPTIONS"` twice (and none of
POST/PUT/DELETE) does not yield `[HEAD, GET, OPTIONS]`. -/
theorem c6_counterexample :
    calculateMethods ["OPTIONS", "OPTIONS"] =
      (["HEAD", "GET", "OPTIONS", "OPTIONS"], ["HEAD", "GET", "OPTIONS", "OPTIONS"]) ∧
    (["HEAD", "GET", "OPTIONS", "OPTIONS"] : List String) ≠ ["HEAD", "GET", "OPTIONS"] := by
  exact ⟨rfl, by decide⟩

/-- C6 (amended): `calculateMethods` returns allowed = cached = [HEAD, GET]
for every supported-methods list containing none of OPTIONS/POST/PUT/DELETE;
when the list contains OPTIONS but none of POST/PUT/DELETE it returns
allowed = cached = [HEAD, GET] followed by one OPTIONS per occurrence of
OPTIONS (hence exactly [HEAD, GET, OPTIONS] when OPTIONS occurs once); for
every list containing at least one of POST, PUT or DELETE it returns
allowed = [HEAD, GET, OPTIONS, POST, PUT, DELETE] with
cached = [HEAD, GET, OPTIONS]; and mutating verbs never appear in the
cached set. -/
theorem c6_calculateMethods_table (l : List String) :
    ((∀ m ∈ l, m ≠ "OPTIONS" ∧ isMutating m = false) →
      calculateMethods l = (["HEAD", "GET"], ["HEAD", "GET"])) ∧
    ((∀ m ∈ l, isMutating m = false) →
      calculateMethods l =
        (["HEAD", "GET"] ++ List.replicate (l.count "OPTIONS") "OPTIONS",
         ["HEAD", "GET"] ++ List.replicate (l.count "OPTIONS") "OPTIONS")) ∧
    ((∃ m ∈ l, isMutating m = true) →
      calculateMethods l =
        (["HEAD", "GET", "OPTIONS", "POST", "PUT", "DELETE"], ["HEAD", "GET", "OPTIONS"])) ∧
    (∀ m ∈ (calculateMethods l).2, isMutating m = false) := by
  refine ⟨fun h => calcMethodsLoop_no_special _ _ h,
          fun h => calcMethodsLoop_no_mutating _ _ h,
          fun h => calcMethodsLoop_mutating _ _ h,
          calcMethodsLoop_cached_not_mutating _ _ ?_⟩
  intro m hm
  simp only [List.mem_cons, List.not_mem_nil, or_false] at hm
  rcases hm with rfl | rfl <;> rfl

/-- Witness for C6: instantiating the amended table at the three spec
examples. -/
theorem c6_calculateMethods_table_witness :
    calculateMethods [] = (["HEAD", "GET"], ["HEAD", "GET"]) ∧
    calculateMethods ["OPTIONS"] =
      (["HEAD", "GET", "OPTIONS"], ["HEAD", "GET", "OPTIONS"]) ∧
    calculateMethods ["POST"] =
      (["HEAD", "GET", "OPTIONS", "POST", "PUT", "DELETE"], ["HEAD", "GET", "OPTIONS"]) := by
  refine ⟨(c6_calculateMethods_table []).1 (by simp), ?_, ?_⟩
  · have := (c6_calculateMethods_table ["OPTIONS"]).2.1 (by decide)
    simpa using this
  · exact (c6_calculateMethods_table ["POST"]).2.2.1 ⟨"POST", by decide⟩

/-! ## CloudFront distribution configuration
(`DistributionProvider.generateDistributionConfig` and its helpers,
distribution.go).  The structures mirror the fields of the AWS SDK's
`cloudfront.DistributionConfig` that the generator sets; pointer fields that
the generator can leave nil are `Option`s, pointer fields it always sets are
plain values (reflect.DeepEqual compares through pointers structurally). -/

/-- `cloudfront.OriginSslProtocols`. -/
structure OriginSslProtocols where
  quantity : Int
  items : List String
deriving DecidableEq, Repr

/-- `cloudfront.CustomOriginConfig`. -/
structure CustomOriginConfig where
  httpPort : Int
  httpsPort : Int
  originProtocolPolicy : String
  originReadTimeout : Int
  originKeepaliveTimeout : Int
  originSslProtocols : OriginSslProtocols
deriving DecidableEq, Repr

/-- One `cloudfront.Origin` item. -/
structure OriginItem where
  domainName : String
  id : String
  connectionAttempts : Int
  connectionTimeout : Int
  customHeadersQuantity : Int
  originPath : String
  customOriginConfig : CustomOriginConfig
deriving DecidableEq, Repr

/-- `cloudfront.Origins`. -/
structure Origins where
  quantity : Int
  items : List OriginItem
deriving DecidableEq, Repr

/-- `cloudfront.Aliases`: `Items` is nil when no host is configured. -/
structure Aliases where
  quantity : Int
  items : Option (List String)
deriving DecidableEq, Repr

/-- `cloudfront.GeoRestriction`. -/
structure GeoRestriction where
  quantity : Int
  restrictionType : String
deriving DecidableEq, Repr

/-- `cloudfront.ViewerCertificate`: the fields
`calculateViewerCertificate` sets; pointers it can leave nil are Options. -/
structure ViewerCertificate where
  acmCertificateArn : Option String
  certificate : Option String
  certificateSource : String
  cloudFrontDefaultCertificate : Bool
  minimumProtocolVersion : String
  sslSupportMethod : Option String
deriving DecidableEq, Repr

/-- `cloudfront.LoggingConfig`. -/
structure LoggingConfig where
  enabled : Bool
  bucket : String
  includeCookies : Bool
  prefixStr : String
deriving DecidableEq, Repr

/-- `cloudfront.CookiePreference`. -/
structure CookiePreference where
  forward : String
deriving DecidableEq, Repr

/-- `cloudfront.Headers`. -/
structure HeadersConfig where
  quantity : Int
  items : List String
deriving DecidableEq, Repr

/-- `cloudfront.ForwardedValues`. -/
structure ForwardedValues where
  cookies : CookiePreference
  queryString : Bool
  queryStringCacheKeysQuantity : Int
  headers : HeadersConfig
deriving DecidableEq, Repr

/-- `cloudfront.TrustedSigners`. -/
structure TrustedSigners where
  enabled : Bool
  quantity : Int
deriving DecidableEq, Repr

/-- `cloudfront.CachedMethods`. -/
structure CachedMethods where
  quantity : Int
  items : List String
deriving DecidableEq, Repr

/-- `cloudfront.AllowedMethods`. -/
structure AllowedMethods where
  quantity : Int
  items : List String
  cachedMethods : CachedMethods
deriving DecidableEq, Repr

/-- `cloudfront.DefaultCacheBehavior`. -/
structure DefaultCacheBehavior where
  targetOriginId : String
  viewerProtocolPolicy : String
  compress : Bool
  cachePolicyId : Option String
  originRequestPolicyId : Option String
  forwardedValues : Option ForwardedValues
  minTTL : Option Int
  maxTTL : Option Int
  defaultTTL : Option Int
  smoothStreaming : Bool
  fieldLevelEncryptionId : String
  trustedSigners : TrustedSigners
  lambdaFunctionAssociationsQuantity : Int
  allowedMethods : AllowedMethods
deriving DecidableEq, Repr

/-- `cloudfront.DistributionConfig`: the full desired/live configuration
record that is generated, diffed with full structural equality, and sent to
create/update calls. -/
structure DistributionConfig where
  callerReference : String
  comment : String
  enabled : Bool
  isIPV6Enabled : Bool
  origins : Origins
  customErrorResponsesQuantity : Int
  originGroupsQuantity : Int
  aliases : Aliases
  cacheBehaviorsQuantity : Int
  geoRestriction : GeoRestriction
  viewerCertificate : ViewerCertificate
  priceClass : String
  logging : LoggingConfig
  defaultRootObject : String
  webACLId : String
  httpVersion : String
  defaultCacheBehavior : DefaultCacheBehavior
deriving DecidableEq, Repr

/-- `DistributionProvider.calculateViewerPolicy` (distribution.go): maps the
Distribution's TLS mode to the CloudFront viewer-protocol policy constant. -/
def calculateViewerPolicy (tls : Option TLSSpec) : String :=
  match tls with
  | none => "allow-all"
  | some t =>
    if t.mode == "both" then "allow-all"
    else if t.mode == "only" then "https-only"
    else "redirect-to-https"

/-- `DistributionProvider.calculateViewerCertificate` (distribution.go):
uses the provisioned ACM certificate when the status carries an ARN, the
CloudFront default certificate otherwise. -/
def calculateViewerCertificate (certificateArn : String) (sslMode : String) :
    ViewerCertificate :=
  if certificateArn != "" then
    { acmCertificateArn := some certificateArn
      certificate := some certificateArn
      certificateSource := "acm"
      cloudFrontDefaultCertificate := false
      minimumProtocolVersion := "TLSv1.2_2021"
      sslSupportMethod := some sslMode }
  else
    { acmCertificateArn := none
      certificate := none
      certificateSource := "cloudfront"
      cloudFrontDefaultCertificate := true
      minimumProtocolVersion := "TLSv1"
      sslSupportMethod := none }

/-- `DistributionProvider.calculateAliases` (distribution.go). -/
def calculateAliases (hosts : List String) : Aliases :=
  { quantity := Int.ofNat hosts.length
    items := if 0 < hosts.length then some hosts else none }

/-- `DistributionProvider.calculateForwardedValues` (distribution.go): nil
when a cache-policy id is configured, otherwise the fixed defaults (forward
the Host header only, all query strings, no cookies). -/
def calculateForwardedValues (cachePolicyId : String) : Option ForwardedValues :=
  if cachePolicyId != "" then none
  else some
    { cookies := { forward := "none" }
      queryString := true
      queryStringCacheKeysQuantity := 0
      headers := { quantity := 1, items := ["Host"] } }

/-- `DistributionProvider.calculateTTLs` (distribution.go): (min, max,
default); nils when a cache-policy id is configured, otherwise AWS' default
TTL triad. -/
def calculateTTLs (cachePolicyId : String) : Option Int × Option Int × Option Int :=
  if cachePolicyId != "" then (none, none, none)
  else (some 0, some 31536000, some 86400)

/-- `stringOrNil` (distribution.go). -/
def stringOrNil (value : String) : Option String :=
  if value == "" then none else some value

/-- `DistributionProvider.generateDistributionConfig` (distribution.go): the
full desired state, derived from the class spec, the Distribution's spec and
uid, and the certificate ARN currently recorded on the threaded status. -/
def generateDistributionConfig (cls : CloudFrontSpec) (distro : Distribution)
    (certificateArn : String) (enabled : Bool) : DistributionConfig :=
  let methodsPair := calculateMethods cls.supportedMethods
  let ttls := calculateTTLs cls.cachePolicyId
  { callerReference := distro.meta.uid
    comment := "Managed By cdn.redcoat.dev"
    enabled := enabled
    isIPV6Enabled := true
    origins :=
      { quantity := 1
        items := [{ domainName := distro.spec.origin.host
                    id := distro.spec.origin.host
                    connectionAttempts := 3
                    connectionTimeout := 10
                    customHeadersQuantity := 0
                    originPath := ""
                    customOriginConfig :=
                      { httpPort := distro.spec.origin.httpPort
                        httpsPort := distro.spec.origin.httpsPort
                        originProtocolPolicy := "match-viewer"
                        originReadTimeout := 30
                        originKeepaliveTimeout := 30
                        originSslProtocols := { quantity := 1, items := ["TLSv1.2"] } } }] }
    customErrorResponsesQuantity := 0
    originGroupsQuantity := 0
    aliases := calculateAliases distro.spec.hosts
    cacheBehaviorsQuantity := 0
    geoRestriction := { quantity := 0, restrictionType := "none" }
    viewerCertificate := calculateViewerCertificate certificateArn cls.sslMode
    priceClass := "PriceClass_All"
    logging := { enabled := false, bucket := "", includeCookies := false, prefixStr := "" }
    defaultRootObject := ""
    webACLId := ""
    httpVersion := "http2"
    defaultCacheBehavior :=
      { targetOriginId := distro.spec.origin.host
        viewerProtocolPolicy := calculateViewerPolicy distro.spec.tls
        compress := true
        cachePolicyId := stringOrNil cls.cachePolicyId
        originRequestPolicyId := stringOrNil cls.originRequestPolicyId
        forwardedValues := calculateForwardedValues cls.cachePolicyId
        minTTL := ttls.1
        maxTTL := ttls.2.1
        defaultTTL := ttls.2.2
        smoothStreaming := false
        fieldLevelEncryptionId := ""
        trustedSigners := { enabled := false, quantity := 0 }
        lambdaFunctionAssociationsQuantity := 0
        allowedMethods :=
          { quantity := Int.ofNat methodsPair.1.length
            items := methodsPair.1
            cachedMethods :=
              { quantity := Int.ofNat methodsPair.2.length
                items := methodsPair.2 } } } }

/-! ## Remote interaction model

A "world" fixes the response each remote AWS call would receive during one
pass (each call is issued at most once per pass).  The provider functions
thread a `ProviderRun` (shared status, issued calls, live states observed
via `setStatus`) and return a Go-style error flag. -/

/-- A CloudFront distribution as returned by the remote API: id, deployment
state string, domain name and configuration. -/
structure RemoteDistribution where
  id : String
  status : String
  domainName : String
  config : DistributionConfig
deriving DecidableEq, Repr

/-- One remote API call, with its payload. -/
inductive RemoteCall where
  | getDistribution (id : String)
  | updateDistribution (config : DistributionConfig) (id : String) (ifMatch : String)
  | deleteDistribution (id : String) (ifMatch : String)
  | createDistribution (config : DistributionConfig)
  | describeCertificate (arn : String)
  | importCertificate (arn : Option String)
deriving DecidableEq, Repr

/-- Response of `GetDistribution`: not found, a transport/API failure, or
the live distribution together with its ETag (concurrency token). -/
inductive GetDistributionResult where
  | notFound
  | failed
  | ok (dist : RemoteDistribution) (etag : String)
deriving DecidableEq, Repr

/-- Response of `UpdateDistribution`. -/
inductive UpdateDistributionResult where
  | failed
  | ok (dist : RemoteDistribution) (etag : String)
deriving DecidableEq, Repr

/-- Response of `CreateDistribution`: `alreadyExists` models the
`DistributionAlreadyExists` conflict, carrying the distribution id that
`regexp [A-Z0-9]{14}` extracts from the error message. -/
inductive CreateDistributionResult where
  | alreadyExists (conflictId : String)
  | failed
  | ok (dist : RemoteDistribution)
deriving DecidableEq, Repr

/-- The CloudFront remote world for one pass. -/
structure CloudFrontWorld where
  getResult : GetDistributionResult
  updateResult : UpdateDistributionResult
  createResult : CreateDistributionResult
  deleteOk : Bool
deriving DecidableEq, Repr

/-- Threaded state of one provider pass: the shared `DistributionStatus`
being mutated, the remote calls issued so far, and the live state strings
observed by `setStatus` so far. -/
structure ProviderRun where
  status : DistributionStatus
  calls : List RemoteCall
  observed : List String
deriving DecidableEq, Repr

namespace DistributionProvider

/-- `DistributionProvider.removeCloudFrontEndpoints` (distribution.go). -/
def removeCloudFrontEndpoints (endpoints : List Endpoint) : List Endpoint :=
  endpoints.filter (fun e => e.provider != "cloudfront")

/-- `DistributionProvider.setStatus` (distribution.go), with `state` the
current remote distribution (`c.CurrentState`): records the remote state
and id, replaces the provider's endpoint, and conjoins readiness with
`state == "Deployed"`.  The observed live state is logged on the run. -/
def setStatus (state : RemoteDistribution) (run : ProviderRun) : ProviderRun :=
  let st := run.status
  let st := { st with cloudFront := { st.cloudFront with state := state.status, id := state.id } }
  let st := { st with endpoints :=
    removeCloudFrontEndpoints st.endpoints ++
      [({ provider := "cloudfront", host := state.domainName, ip := "" } : Endpoint)] }
  let st := { st with ready := st.ready && (state.status == "Deployed") }
  { run with status := st, observed := run.observed ++ [state.status] }

/-- `DistributionProvider.load` (distribution.go): fetches the stored id
(read from the Distribution's loaded status); a `NoSuchDistribution`
response clears the stored id and the provider's endpoints and is not an
error; on success the live distribution and its ETag are returned and the
status refreshed.  Result: (run, current state with ETag if found, error). -/
def load (w : CloudFrontWorld) (storedId : String) (run : ProviderRun) :
    ProviderRun × Option (RemoteDistribution × String) × Bool :=
  let run := { run with calls := run.calls ++ [RemoteCall.getDistribution storedId] }
  match w.getResult with
  | GetDistributionResult.notFound =>
    let st := run.status
    let st := { st with cloudFront := { st.cloudFront with id := "" } }
    let st := { st with endpoints := removeCloudFrontEndpoints st.endpoints }
    ({ run with status := st }, none, false)
  | GetDistributionResult.failed => (run, none, true)
  | GetDistributionResult.ok dist etag => (setStatus dist run, some (dist, etag), false)

/-- `DistributionProvider.update` (distribution.go): issues
`UpdateDistribution` with the desired config, the current state's id and
the given ETag; refreshes status from the response on success. -/
def update (w : CloudFrontWorld) (desired : DistributionConfig) (currentId : String)
    (etag : String) (run : ProviderRun) :
    ProviderRun × Option (RemoteDistribution × String) × Bool :=
  let run := { run with calls :=
    run.calls ++ [RemoteCall.updateDistribution desired currentId etag] }
  match w.updateResult with
  | UpdateDistributionResult.failed => (run, none, true)
  | UpdateDistributionResult.ok dist etag2 => (setStatus dist run, some (dist, etag2), false)

/-- `DistributionProvider.Create` (distribution.go): generates the desired
config with enabled=true and issues `CreateDistribution`.  On a
`DistributionAlreadyExists` conflict the conflicting id is salvaged into
the status with state "Unknown" and the error still returned. -/
def Create (w : CloudFrontWorld) (cls : CloudFrontSpec) (distro : Distribution)
    (run : ProviderRun) : ProviderRun × Bool :=
  let desired := generateDistributionConfig cls distro run.status.cloudFront.certificateArn true
  let run := { run with calls := run.calls ++ [RemoteCall.createDistribution desired] }
  match w.createResult with
  | CreateDistributionResult.alreadyExists conflictId =>
    let st := run.status
    let st := { st with cloudFront :=
      { st.cloudFront with id := conflictId, state := "Unknown" } }
    ({ run with status := st }, true)
  | CreateDistributionResult.failed => (run, true)
  | CreateDistributionResult.ok dist => (setStatus dist run, false)

/-- `DistributionProvider.Check` (distribution.go): loads the live state; a
vanished distribution falls through to `Create`; otherwise the desired
config is generated and an update issued exactly when it differs by full
structural equality from the live config. -/
def Check (w : CloudFrontWorld) (cls : CloudFrontSpec) (distro : Distribution)
    (run : ProviderRun) : ProviderRun × Bool :=
  let l := load w distro.status.cloudFront.id run
  if l.2.2 then (l.1, true)
  else
    match l.2.1 with
    | none => Create w cls distro l.1
    | some (dist, etag) =>
      let run := l.1
      let desired :=
        generateDistributionConfig cls distro run.status.cloudFront.certificateArn true
      if desired == dist.config then (run, false)
      else
        let u := update w desired dist.id etag run
        (u.1, u.2.2)

/-- `DistributionProvider.Reconcile` (distribution.go): `Check` when the
Distribution's loaded status records a CloudFront id, `Create` otherwise. -/
def Reconcile (w : CloudFrontWorld) (cls : CloudFrontSpec) (distro : Distribution)
    (run : ProviderRun) : ProviderRun × Bool :=
  if distro.status.cloudFront.id != "" then Check w cls distro run
  else Create w cls distro run

/-- `DistributionProvider.Delete` (distribution.go): loads the live state
(NotFound is success); an enabled live distribution is disabled via one
update (no delete call); a disabled distribution still "InProgress" is left
alone (success); otherwise `DeleteDistribution` is issued with the current
ETag and on success the stored id and the provider's endpoints are
cleared. -/
def Delete (w : CloudFrontWorld) (distro : Distribution) (run : ProviderRun) :
    ProviderRun × Bool :=
  let l := load w distro.status.cloudFront.id run
  if l.2.2 then (l.1, true)
  else
    match l.2.1 with
    | none => (l.1, false)
    | some (dist, etag) =>
      let run := l.1
      if dist.config.enabled then
        let desired := { dist.config with enabled := false }
        let u := update w desired dist.id etag run
        (u.1, u.2.2)
      else if dist.status == "InProgress" then (run, false)
      else
        let run :=
          { run with calls := run.calls ++ [RemoteCall.deleteDistribution dist.id etag] }
        if w.deleteOk then
          let st := run.status
          let st := { st with cloudFront := { st.cloudFront with id := "" } }
          let st := { st with endpoints := removeCloudFrontEndpoints st.endpoints }
          ({ run with status := st }, false)
        else (run, true)

end DistributionProvider

/-! ## ACM certificate sub-provider (`CertificateProvider`, certificate.go) -/

/-- Response of `DescribeCertificate`: not found, a failure, or the live
certificate's serial number string. -/
inductive DescribeCertificateResult where
  | notFound
  | failed
  | ok (serial : String)
deriving DecidableEq, Repr

/-- Response of `ImportCertificate`: a failure, or the ARN of the imported
certificate. -/
inductive ImportCertificateResult where
  | failed
  | ok (arn : String)
deriving DecidableEq, Repr

/-- The ACM remote world for one pass. -/
structure AcmWorld where
  describeResult : DescribeCertificateResult
  certImportResult : ImportCertificateResult
deriving DecidableEq, Repr

/-- The resolved TLS certificate as the provider consumes it: the parsed
leaf's serial number (the encoded leaf, chain and key bytes only flow
opaquely into the import payload). -/
structure ResolvedCertificate where
  serialNumber : Nat
deriving DecidableEq, Repr

namespace CertificateProvider

/-- Lowercase hexadecimal rendering of a serial number, as Go's
`SerialNumber.Text(16)`. -/
def hexOfNat (n : Nat) : String :=
  (Nat.toDigits 16 n).asString

/-- Splits a character list into two-character chunks (a trailing odd
character forms its own chunk; `getSerial` pads to even length first). -/
def pairChunks : List Char → List String
  | a :: b :: rest => String.mk [a, b] :: pairChunks rest
  | [a] => [String.mk [a]]
  | [] => []

/-- `CertificateProvider.getSerial` (certificate.go): canonical
hex-with-colon form of the resolved certificate's serial number — lowercase
hex, zero-padded to even length, a colon between every two digits (the Go
code appends a colon to every pair via `regexp ".."` and trims the trailing
one). -/
def getSerial (serialNumber : Nat) : String :=
  let code := hexOfNat serialNumber
  let code := if code.length % 2 == 1 then "0" ++ code else code
  String.intercalate ":" (pairChunks code.data)

/-- `CertificateProvider.Create` (certificate.go): imports the resolved
certificate, passing the already-stored ARN (if any) so the remote object
is replaced in place; on success the stored ARN is refreshed from the
response. -/
def Create (w : AcmWorld) (run : ProviderRun) : ProviderRun × Bool :=
  let arnArg :=
    if run.status.cloudFront.certificateArn != "" then
      some run.status.cloudFront.certificateArn
    else none
  let run := { run with calls := run.calls ++ [RemoteCall.importCertificate arnArg] }
  match w.certImportResult with
  | ImportCertificateResult.failed => (run, true)
  | ImportCertificateResult.ok newArn =>
    ({ run with status :=
      { run.status with cloudFront := { run.status.cloudFront with certificateArn := newArn } } },
     false)

/-- `CertificateProvider.Check` (certificate.go): describes the stored
certificate; NotFound clears the stored ARN and re-creates; otherwise a
re-create is triggered exactly when the canonical serial of the resolved
leaf differs from the live serial. -/
def Check (w : AcmWorld) (cert : ResolvedCertificate) (run : ProviderRun) :
    ProviderRun × Bool :=
  let run := { run with calls :=
    run.calls ++ [RemoteCall.describeCertificate run.status.cloudFront.certificateArn] }
  match w.describeResult with
  | DescribeCertificateResult.notFound =>
    Create w { run with status :=
      { run.status with cloudFront := { run.status.cloudFront with certificateArn := "" } } }
  | DescribeCertificateResult.failed => (run, true)
  | DescribeCertificateResult.ok liveSerial =>
    if getSerial cert.serialNumber != liveSerial then Create w run
    else (run, false)

/-- `CertificateProvider.Reconcile` (certificate.go): `Check` when the
threaded status already stores a certificate ARN, `Create` otherwise. -/
def Reconcile (w : AcmWorld) (cert : ResolvedCertificate) (run : ProviderRun) :
    ProviderRun × Bool :=
  if run.status.cloudFront.certificateArn != "" then Check w cert run
  else Create w run

end CertificateProvider

/-! ## CloudFront top-level provider (`CloudFrontProvider`, provider.go) -/

namespace CloudFrontProvider

/-- `CloudFrontProvider.Wants` (provider.go): the class configures this
provider when its CloudFront block is present. -/
def Wants (cls : DistributionClassSpec) : Bool :=
  cls.providers.cloudFront.isSome

/-- `CloudFrontProvider.Has` (provider.go): the status records external
state for this provider when it stores a CloudFront distribution id. -/
def Has (status : DistributionStatus) : Bool :=
  status.cloudFront.id != ""

/-- Fallback class spec used only to model Go's unconditional pointer
dereference `*class.Providers.CloudFront`; the engine only invokes the
provider when `Wants` is true, i.e. when the block is present. -/
def emptyCloudFrontSpec : CloudFrontSpec :=
  { sslMode := "", cachePolicyId := "", originRequestPolicyId := "", supportedMethods := [] }

/-- Modelled from the spec: the CloudFront provider's `Reconcile` glue.
The engine-era implementation of this method is not under src/ (only its
caller and an earlier revision of provider.go are); per spec §4.5 the
provider "converges one external CDN distribution and, if configured, one
external TLS certificate object", and the earlier provider.go shows the
same sequencing: reconcile the ACM certificate first, abort on its error,
then reconcile the distribution. -/
def Reconcile (acmW : AcmWorld) (cfW : CloudFrontWorld) (cls : DistributionClassSpec)
    (distro : Distribution) (cert : Option ResolvedCertificate) (run : ProviderRun) :
    ProviderRun × Bool :=
  let cfSpec := cls.providers.cloudFront.getD emptyCloudFrontSpec
  match cert with
  | none => DistributionProvider.Reconcile cfW cfSpec distro run
  | some c =>
    let acmRes := CertificateProvider.Reconcile acmW c run
    if acmRes.2 then (acmRes.1, true)
    else DistributionProvider.Reconcile cfW cfSpec distro acmRes.1

/-- `CloudFrontProvider.Delete` (provider.go): delegates to the
distribution sub-provider's Delete. -/
def Delete (cfW : CloudFrontWorld) (distro : Distribution) (run : ProviderRun) :
    ProviderRun × Bool :=
  DistributionProvider.Delete cfW distro run

end CloudFrontProvider

/-! ## Reconciliation engine (`DistributionReconciler`, distribution_controller.go) -/

/-- A provider as the engine sees it (`provider.CDNProvider`): its `Wants`
decision for the current class, its `Has` predicate, and its
`Reconcile`/`Delete` actions on the threaded run. -/
structure ProviderM where
  wants : Bool
  has : DistributionStatus → Bool
  reconcile : ProviderRun → ProviderRun × Bool
  delete : ProviderRun → ProviderRun × Bool

/-- `ctrl.Result`: `requeue` is the immediate-requeue flag, `requeueAfter`
the scheduled recheck in seconds (0 = none). -/
structure CtrlResult where
  requeue : Bool
  requeueAfter : Nat
deriving DecidableEq, Repr

/-- `DistributionReconciler.requeueIfNotReady`
(distribution_controller.go): adds a 1-minute recheck when the condition is
unmet, unless an immediate requeue is already flagged. -/
def requeueIfNotReady (result : CtrlResult) (condition : Bool) : CtrlResult :=
  if !result.requeue && !condition then { result with requeueAfter := 60 } else result

/-- `DistributionReconciler.updateStatus` (distribution_controller.go):
issues a status write (returned as `some newStatus`) exactly when the new
status differs by full structural comparison (`reflect.DeepEqual`) from the
status most recently loaded. -/
def updateStatus (newStatus oldStatus : DistributionStatus) : Option DistributionStatus :=
  if newStatus != oldStatus then some newStatus else none

/-- The provider loop of `DistributionReconciler.reconcileProviders`: each
provider wanting the class runs `Reconcile` on the shared status; an error
forces Ready to false.  Returns the final run and the per-participating-
provider error flags (whose disjunction the source accumulates into
`result.Requeue`). -/
def reconcileLoop : List ProviderM → ProviderRun → ProviderRun × List Bool
  | [], run => (run, [])
  | p :: ps, run =>
    if p.wants then
      let pr := p.reconcile run
      let run1 :=
        if pr.2 then { pr.1 with status := { pr.1.status with ready := false } } else pr.1
      let rest := reconcileLoop ps run1
      (rest.1, pr.2 :: rest.2)
    else reconcileLoop ps run

/-- Outcome of one engine pass. -/
structure PassOutcome where
  newStatus : DistributionStatus
  errs : List Bool
  result : CtrlResult
  write : Option DistributionStatus
  calls : List RemoteCall
  observed : List String
deriving Repr

/-- `DistributionReconciler.reconcileProviders`
(distribution_controller.go): when the Distribution has a TLS spec, a
failed certificate resolution (`certResolutionFailed`) aborts the pass,
writing a bare not-ready status and returning an empty result; otherwise
the new status is seeded from a deep copy of the loaded status with
Ready := true, every wanting provider reconciles, errors flag an immediate
requeue, a 1-minute recheck is added when not ready, and the status is
persisted only if changed. -/
def reconcileProviders (ps : List ProviderM) (distro : Distribution)
    (certResolutionFailed : Bool) : PassOutcome :=
  if distro.spec.tls.isSome && certResolutionFailed then
    { newStatus := { ready := false, endpoints := [], cloudFront := ⟨"", "", ""⟩ }
      errs := []
      result := { requeue := false, requeueAfter := 0 }
      write := updateStatus { ready := false, endpoints := [], cloudFront := ⟨"", "", ""⟩ }
        distro.status
      calls := []
      observed := [] }
  else
    let run0 : ProviderRun :=
      { status := { distro.status with ready := true }, calls := [], observed := [] }
    let lr := reconcileLoop ps run0
    let result := requeueIfNotReady { requeue := lr.2.any id, requeueAfter := 0 }
      lr.1.status.ready
    { newStatus := lr.1.status
      errs := lr.2
      result := result
      write := updateStatus lr.1.status distro.status
      calls := lr.1.calls
      observed := lr.1.observed }

/-- The provider loop of `DistributionReconciler.deleteProviders`: each
provider whose `Has` holds on the loaded status runs `Delete` on the shared
status; `allDeleted` accumulates `!provider.Has(*newStatus)` evaluated
right after that provider's Delete. -/
def deleteLoop (loaded : DistributionStatus) :
    List ProviderM → ProviderRun → ProviderRun × List Bool × Bool
  | [], run => (run, [], true)
  | p :: ps, run =>
    if p.has loaded then
      let pd := p.delete run
      let d1 := !(p.has pd.1.status)
      let rest := deleteLoop loaded ps pd.1
      (rest.1, pd.2 :: rest.2.1, d1 && rest.2.2)
    else deleteLoop loaded ps run

/-- Outcome of one deletion pass. -/
structure DeleteOutcome where
  allDeleted : Bool
  newStatus : DistributionStatus
  errs : List Bool
  result : CtrlResult
  write : Option DistributionStatus
  calls : List RemoteCall
deriving Repr

/-- `DistributionReconciler.deleteProviders`
(distribution_controller.go): seeds the new status with Ready := false,
invokes Delete for every provider reporting existing external state,
errors flag an immediate requeue, the 1-minute rule is keyed off
`allDeleted`, and the status is persisted only if changed. -/
def deleteProviders (ps : List ProviderM) (distro : Distribution) : DeleteOutcome :=
  let run0 : ProviderRun :=
    { status := { distro.status with ready := false }, calls := [], observed := [] }
  let dl := deleteLoop distro.status ps run0
  let result := requeueIfNotReady { requeue := dl.2.1.any id, requeueAfter := 0 } dl.2.2
  { allDeleted := dl.2.2
    newStatus := dl.1.status
    errs := dl.2.1
    result := result
    write := updateStatus dl.1.status distro.status
    calls := dl.1.calls }

/-- The controller's finalizer token. -/
def finalizerName : String := "cdn.redcoat.dev/finalizer"

/-- Outcome of the deletion branch of `DistributionReconciler.Reconcile`:
the finalizer list after the pass, whether a finalizer-removing update was
persisted, and the deletion pass outcome. -/
structure DeletionReconcileOutcome where
  finalizers : List String
  finalizerPersisted : Bool
  outcome : DeleteOutcome
deriving Repr

/-- The deletion branch of `DistributionReconciler.Reconcile`
(distribution_controller.go): runs `deleteProviders` and, when all
providers report no remaining external state, removes the finalizer and
persists the change. -/
def reconcileDeletion (ps : List ProviderM) (distro : Distribution) :
    DeletionReconcileOutcome :=
  let o := deleteProviders ps distro
  if o.allDeleted then
    { finalizers := distro.meta.finalizers.filter (fun f => f != finalizerName)
      finalizerPersisted := true
      outcome := o }
  else
    { finalizers := distro.meta.finalizers, finalizerPersisted := false, outcome := o }

/-- The action `DistributionReconciler.Reconcile`
(distribution_controller.go) takes after loading the Distribution and its
class: the reconciliation loop when deletion is not requested, the deletion
loop when deletion is requested and the finalizer is present, and nothing
otherwise. -/
inductive ReconcileAction where
  | activePass (p : PassOutcome)
  | deletePass (d : DeletionReconcileOutcome)
  | noop
deriving Repr

/-- `DistributionReconciler.Reconcile` (distribution_controller.go),
dispatch after loading: see `reconcileProviders` and `reconcileDeletion`.
(The active branch also ensures the finalizer is present before
reconciling; that update does not affect the properties below.) -/
def DistributionReconciler.Reconcile (ps : List ProviderM) (distro : Distribution)
    (certResolutionFailed : Bool) : ReconcileAction :=
  if !distro.meta.deletionRequested then
    ReconcileAction.activePass (reconcileProviders ps distro certResolutionFailed)
  else if finalizerName ∈ distro.meta.finalizers then
    ReconcileAction.deletePass (reconcileDeletion ps distro)
  else
    ReconcileAction.noop

/-- The engine's provider list instantiated with the CloudFront provider
(`NewDistributionController` registers exactly
`[]provider.CDNProvider{cloudfront.CloudFrontProvider{}}`). -/
def cloudFrontProviderM (acmW : AcmWorld) (cfW : CloudFrontWorld)
    (cls : DistributionClassSpec) (distro : Distribution)
    (cert : Option ResolvedCertificate) : ProviderM :=
  { wants := CloudFrontProvider.Wants cls
    has := CloudFrontProvider.Has
    reconcile := fun run => CloudFrontProvider.Reconcile acmW cfW cls distro cert run
    delete := fun run => CloudFrontProvider.Delete cfW distro run }

/-! ## Theorems -/

/-- A pass-initial provider run: the given status, no calls issued, no
observations yet. -/
def initialRun (st : DistributionStatus) : ProviderRun :=
  { status := st, calls := [], observed := [] }

lemma updateStatus_eq_none_iff (n o : DistributionStatus) :
    updateStatus n o = none ↔ n = o := by
  unfold updateStatus
  rcases eq_or_ne n o with h | h <;> simp [h]

lemma updateStatus_eq_some (n o s : DistributionStatus)
    (h : updateStatus n o = some s) : s = n := by
  unfold updateStatus at h
  rcases eq_or_ne n o with h1 | h1 <;> simp [h1] at h
  exact h.symm

lemma reconcileProviders_write (ps : List ProviderM) (distro : Distribution)
    (certResolutionFailed : Bool) :
    (reconcileProviders ps distro certResolutionFailed).write =
      updateStatus (reconcileProviders ps distro certResolutionFailed).newStatus
        distro.status := by
  unfold reconcileProviders
  by_cases h : (distro.spec.tls.isSome && certResolutionFailed) = true
  · simp [h]
  · simp [h]

lemma deleteProviders_write (ps : List ProviderM) (distro : Distribution) :
    (deleteProviders ps distro).write =
      updateStatus (deleteProviders ps distro).newStatus distro.status := by
  unfold deleteProviders
  simp

/-- C9: in a reconciliation pass and in a deletion pass alike, a status
write is issued exactly when the newly computed status differs by full
structural comparison from the status most recently loaded, and any issued
write carries exactly the newly computed status (when equal, nothing is
written and the stored status is untouched). -/
theorem c9_updateStatus_only_on_change (ps : List ProviderM) (distro : Distribution)
    (certResolutionFailed : Bool) :
    ((reconcileProviders ps distro certResolutionFailed).write = none ↔
      (reconcileProviders ps distro certResolutionFailed).newStatus = distro.status) ∧
    (∀ s, (reconcileProviders ps distro certResolutionFailed).write = some s →
      s = (reconcileProviders ps distro certResolutionFailed).newStatus) ∧
    ((deleteProviders ps distro).write = none ↔
      (deleteProviders ps distro).newStatus = distro.status) ∧
    (∀ s, (deleteProviders ps distro).write = some s →
      s = (deleteProviders ps distro).newStatus) := by
  refine ⟨?_, ?_, ?_, ?_⟩
  · rw [reconcileProviders_write]
    exact updateStatus_eq_none_iff _ _
  · intro s hs
    rw [reconcileProviders_write] at hs
    exact updateStatus_eq_some _ _ _ hs
  · rw [deleteProviders_write]
    exact updateStatus_eq_none_iff _ _
  · intro s hs
    rw [deleteProviders_write] at hs
    exact updateStatus_eq_some _ _ _ hs

/-- Witness for C9 at a concrete unchanged-status pass: no providers, no
cert failure, so the only change is Ready true vs the loaded Ready false —
a write is issued carrying the new status. -/
theorem c9_updateStatus_only_on_change_witness :
    (reconcileProviders []
      { meta := { uid := "u", deletionRequested := false, finalizers := [] }
        spec := { origin := { host := "o", httpPort := 80, httpsPort := 443 }
                  hosts := [], tls := none }
        status := { ready := false, endpoints := [], cloudFront := ⟨"", "", ""⟩ } }
      false).write =
      some { ready := true, endpoints := [], cloudFront := ⟨"", "", ""⟩ } := by
  have h := (c9_updateStatus_only_on_change []
    { meta := { uid := "u", deletionRequested := false, finalizers := [] }
      spec := { origin := { host := "o", httpPort := 80, httpsPort := 443 }
                hosts := [], tls := none }
      status := { ready := false, endpoints := [], cloudFront := ⟨"", "", ""⟩ } }
    false).2.1
  rfl

lemma setStatus_arn (d : RemoteDistribution) (run : ProviderRun) :
    (DistributionProvider.setStatus d run).status.cloudFront.certificateArn =
      run.status.cloudFront.certificateArn := rfl

lemma setStatus_calls (d : RemoteDistribution) (run : ProviderRun) :
    (DistributionProvider.setStatus d run).calls = run.calls := rfl

/-- C3: when the live distribution is found, `Check` issues a remote update
if and only if the generated desired configuration differs by full
structural equality from the fetched live configuration, and then exactly
one update call carrying the regenerated desired config (and the fetched
concurrency token); consequently a pass whose fetched live config equals
the generated config — i.e. a second reconcile with no drift and no spec
change — issues no create/update call and succeeds. -/
theorem c3_check_updates_iff_config_drift
    (cfW : CloudFrontWorld) (cls : CloudFrontSpec) (distro : Distribution)
    (st : DistributionStatus) (d : RemoteDistribution) (etag : String)
    (hget : cfW.getResult = GetDistributionResult.ok d etag) :
    (DistributionProvider.Check cfW cls distro (initialRun st)).1.calls =
      (if generateDistributionConfig cls distro st.cloudFront.certificateArn true == d.config
       then [RemoteCall.getDistribution distro.status.cloudFront.id]
       else [RemoteCall.getDistribution distro.status.cloudFront.id,
             RemoteCall.updateDistribution
               (generateDistributionConfig cls distro st.cloudFront.certificateArn true)
               d.id etag]) ∧
    (generateDistributionConfig cls distro st.cloudFront.certificateArn true = d.config →
      (DistributionProvider.Check cfW cls distro (initialRun st)).1.calls =
        [RemoteCall.getDistribution distro.status.cloudFront.id] ∧
      (DistributionProvider.Check cfW cls distro (initialRun st)).2 = false) := by
  unfold DistributionProvider.Check DistributionProvider.load DistributionProvider.update
  by_cases heq :
    generateDistributionConfig cls distro st.cloudFront.certificateArn true = d.config
  · simp [hget, heq, initialRun, DistributionProvider.setStatus]
  · rcases hu : cfW.updateResult <;>
      simp [hget, heq, hu, initialRun, DistributionProvider.setStatus]

/-- Witness for C3: a concrete no-drift pass issues only the fetch call and
returns success. -/
theorem c3_check_updates_iff_config_drift_witness :
    (DistributionProvider.Check
      { getResult := GetDistributionResult.ok
          { id := "D1", status := "Deployed", domainName := "d.cf.net"
            config := generateDistributionConfig
              { sslMode := "", cachePolicyId := "", originRequestPolicyId := ""
                supportedMethods := [] }
              { meta := { uid := "u", deletionRequested := false, finalizers := [] }
                spec := { origin := { host := "o", httpPort := 80, httpsPort := 443 }
                          hosts := [], tls := none }
                status := { ready := false, endpoints := []
                            cloudFront := ⟨"Deployed", "D1", ""⟩ } }
              "" true }
          "etag1"
        updateResult := UpdateDistributionResult.failed
        createResult := CreateDistributionResult.failed
        deleteOk := false }
      { sslMode := "", cachePolicyId := "", originRequestPolicyId := ""
        supportedMethods := [] }
      { meta := { uid := "u", deletionRequested := false, finalizers := [] }
        spec := { origin := { host := "o", httpPort := 80, httpsPort := 443 }
                  hosts := [], tls := none }
        status := { ready := false, endpoints := []
                    cloudFront := ⟨"Deployed", "D1", ""⟩ } }
      (initialRun { ready := true, endpoints := [], cloudFront := ⟨"Deployed", "D1", ""⟩ })).1.calls =
      [RemoteCall.getDistribution "D1"] := by
  have h := (c3_check_updates_iff_config_drift
    { getResult := GetDistributionResult.ok
        { id := "D1", status := "Deployed", domainName := "d.cf.net"
          config := generateDistributionConfig
            { sslMode := "", cachePolicyId := "", originRequestPolicyId := ""
              supportedMethods := [] }
            { meta := { uid := "u", deletionRequested := false, finalizers := [] }
              spec := { origin := { host := "o", httpPort := 80, httpsPort := 443 }
                        hosts := [], tls := none }
              status := { ready := false, endpoints := []
                          cloudFront := ⟨"Deployed", "D1", ""⟩ } }
            "" true }
        "etag1"
      updateResult := UpdateDistributionResult.failed
      createResult := CreateDistributionResult.failed
      deleteOk := false }
    { sslMode := "", cachePolicyId := "", originRequestPolicyId := ""
      supportedMethods := [] }
    { meta := { uid := "u", deletionRequested := false, finalizers := [] }
      spec := { origin := { host := "o", httpPort := 80, httpsPort := 443 }
                hosts := [], tls := none }
      status := { ready := false, endpoints := []
                  cloudFront := ⟨"Deployed", "D1", ""⟩ } }
    { ready := true, endpoints := [], cloudFront := ⟨"Deployed", "D1", ""⟩ }
    { id := "D1", status := "Deployed", domainName := "d.cf.net"
      config := generateDistributionConfig
        { sslMode := "", cachePolicyId := "", originRequestPolicyId := ""
          supportedMethods := [] }
        { meta := { uid := "u", deletionRequested := false, finalizers := [] }
          spec := { origin := { host := "o", httpPort := 80, httpsPort := 443 }
                    hosts := [], tls := none }
          status := { ready := false, endpoints := []
                      cloudFront := ⟨"Deployed", "D1", ""⟩ } }
        "" true }
    "etag1" rfl).2 rfl
  exact h.1

/-- C2: with the live state found, `Delete` never issues the remote delete
call while the live configuration is enabled or the live state is
"InProgress": if enabled it issues exactly one update whose payload is the
live configuration with only Enabled flipped to false, and returns; if
disabled but still "InProgress" it returns success with no further remote
call and with the stored id not cleared (it equals the live id); once
disabled and not in-progress it issues the remote delete with the fetched
concurrency token, clearing the stored id and the provider's endpoints on
success; a NotFound on the initial fetch is success with no further remote
call. -/
theorem c2_delete_ordering (cfW : CloudFrontWorld) (distro : Distribution)
    (st : DistributionStatus) :
    (∀ d etag, cfW.getResult = GetDistributionResult.ok d etag →
      (d.config.enabled = true →
        (DistributionProvider.Delete cfW distro (initialRun st)).1.calls =
          [RemoteCall.getDistribution distro.status.cloudFront.id,
           RemoteCall.updateDistribution { d.config with enabled := false } d.id etag]) ∧
      (d.config.enabled = false → d.status = "InProgress" →
        (DistributionProvider.Delete cfW distro (initialRun st)).2 = false ∧
        (DistributionProvider.Delete cfW distro (initialRun st)).1.calls =
          [RemoteCall.getDistribution distro.status.cloudFront.id] ∧
        (DistributionProvider.Delete cfW distro (initialRun st)).1.status.cloudFront.id =
          d.id) ∧
      (d.config.enabled = false → d.status ≠ "InProgress" →
        (DistributionProvider.Delete cfW distro (initialRun st)).1.calls =
          [RemoteCall.getDistribution distro.status.cloudFront.id,
           RemoteCall.deleteDistribution d.id etag] ∧
        (cfW.deleteOk = true →
          (DistributionProvider.Delete cfW distro (initialRun st)).2 = false ∧
          (DistributionProvider.Delete cfW distro (initialRun st)).1.status.cloudFront.id
            = "" ∧
          ∀ e ∈ (DistributionProvider.Delete cfW distro (initialRun st)).1.status.endpoints,
            e.provider ≠ "cloudfront")) ∧
      (d.config.enabled = true ∨ d.status = "InProgress" →
        ∀ i2 e2, RemoteCall.deleteDistribution i2 e2 ∉
          (DistributionProvider.Delete cfW distro (initialRun st)).1.calls)) ∧
    (cfW.getResult = GetDistributionResult.notFound →
      (DistributionProvider.Delete cfW distro (initialRun st)).2 = false ∧
      (DistributionProvider.Delete cfW distro (initialRun st)).1.calls =
        [RemoteCall.getDistribution distro.status.cloudFront.id]) := by
  constructor
  · intro d etag hget
    refine ⟨?_, ?_, ?_, ?_⟩
    · intro hen
      unfold DistributionProvider.Delete DistributionProvider.load
        DistributionProvider.update
      rcases hu : cfW.updateResult <;>
        simp [hget, hu, hen, initialRun, DistributionProvider.setStatus]
    · intro hen hip
      unfold DistributionProvider.Delete DistributionProvider.load
      simp [hget, hen, hip, initialRun, DistributionProvider.setStatus]
    · intro hen hip
      have hip2 : (d.status == "InProgress") = false := by simp [hip]
      unfold DistributionProvider.Delete DistributionProvider.load
      rcases hd : cfW.deleteOk <;>
        simp [hget, hen, hip2, hd, initialRun, DistributionProvider.setStatus,
          DistributionProvider.removeCloudFrontEndpoints, List.mem_filter]
    · intro hcase i2 e2
      rcases hcase with hen | hip
      · unfold DistributionProvider.Delete DistributionProvider.load
          DistributionProvider.update
        rcases hu : cfW.updateResult <;>
          simp [hget, hu, hen, initialRun, DistributionProvider.setStatus]
      · by_cases hen : d.config.enabled = true
        · unfold DistributionProvider.Delete DistributionProvider.load
            DistributionProvider.update
          rcases hu : cfW.updateResult <;>
            simp [hget, hu, hen, initialRun, DistributionProvider.setStatus]
        · have hen2 : d.config.enabled = false := by
            rcases Bool.eq_false_or_eq_true d.config.enabled with h | h
            · exact absurd h hen
            · exact h
          unfold DistributionProvider.Delete DistributionProvider.load
          simp [hget, hen2, hip, initialRun, DistributionProvider.setStatus]
  · intro hget
    unfold DistributionProvider.Delete DistributionProvider.load
    simp [hget, initialRun]

/-! ## Concrete sample values used by witnesses -/

/-- A sample class-level CloudFront configuration. -/
def sampleCFSpec : CloudFrontSpec :=
  { sslMode := "sni-only", cachePolicyId := "", originRequestPolicyId := ""
    supportedMethods := [] }

/-- A sample class spec wanting the CloudFront provider. -/
def sampleClass : DistributionClassSpec :=
  { providers := { cloudFront := some sampleCFSpec } }

/-- A sample status recording a CloudFront distribution id. -/
def sampleStatus : DistributionStatus :=
  { ready := false, endpoints := [{ provider := "cloudfront", host := "d.cf.net", ip := "" }]
    cloudFront := { state := "Deployed", id := "D1", certificateArn := "" } }

/-- A sample Distribution with a stored CloudFront id, deletion requested
and the finalizer present. -/
def sampleDeletingDistro : Distribution :=
  { meta := { uid := "uid-1", deletionRequested := true
              finalizers := ["cdn.redcoat.dev/finalizer"] }
    spec := { origin := { host := "origin.example.com", httpPort := 80, httpsPort := 443 }
              hosts := ["www.example.com"], tls := none }
    status := sampleStatus }

/-- A sample live remote distribution that is still enabled. -/
def sampleEnabledRemote : RemoteDistribution :=
  { id := "D1", status := "Deployed", domainName := "d.cf.net"
    config := generateDistributionConfig sampleCFSpec sampleDeletingDistro "" true }

/-- A world whose fetch finds `sampleEnabledRemote` and whose mutating
calls all succeed. -/
def sampleEnabledWorld : CloudFrontWorld :=
  { getResult := GetDistributionResult.ok sampleEnabledRemote "etag1"
    updateResult := UpdateDistributionResult.ok
      { sampleEnabledRemote with
          status := "InProgress",
          config := generateDistributionConfig sampleCFSpec sampleDeletingDistro "" false }
      "etag2"
    createResult := CreateDistributionResult.failed
    deleteOk := true }

/-- Witness for C2: deleting while the live distribution is enabled issues
exactly the fetch and the disabling update, and no remote delete call. -/
theorem c2_delete_ordering_witness :
    (DistributionProvider.Delete sampleEnabledWorld sampleDeletingDistro
      (initialRun sampleStatus)).1.calls =
      [RemoteCall.getDistribution "D1",
       RemoteCall.updateDistribution
         { sampleEnabledRemote.config with enabled := false } "D1" "etag1"] := by
  have h := (c2_delete_ordering sampleEnabledWorld sampleDeletingDistro
    sampleStatus).1 sampleEnabledRemote "etag1" rfl
  exact h.1 rfl

/-- C7: with a certificate ARN already stored and the live certificate
found, `Check` triggers a re-import if and only if the canonical
hex-with-colon serial of the resolved leaf differs from the live serial;
the re-import passes the existing stored ARN, so exactly one import call
occurs and (the remote echoing the passed ARN back, as ACM does on
re-import) the stored ARN after the pass equals the stored ARN before it —
never a new id. -/
theorem c7_certificate_renewal (acmW : AcmWorld) (cert : ResolvedCertificate)
    (st : DistributionStatus) (liveSerial : String)
    (harn : st.cloudFront.certificateArn ≠ "")
    (hdesc : acmW.describeResult = DescribeCertificateResult.ok liveSerial)
    (hecho : ∀ a, acmW.certImportResult = ImportCertificateResult.ok a →
      a = st.cloudFront.certificateArn) :
    (CertificateProvider.Check acmW cert (initialRun st)).1.calls =
      (if CertificateProvider.getSerial cert.serialNumber == liveSerial
       then [RemoteCall.describeCertificate st.cloudFront.certificateArn]
       else [RemoteCall.describeCertificate st.cloudFront.certificateArn,
             RemoteCall.importCertificate (some st.cloudFront.certificateArn)]) ∧
    (CertificateProvider.Check acmW cert (initialRun st)).1.status.cloudFront.certificateArn
      = st.cloudFront.certificateArn := by
  have harnb : (st.cloudFront.certificateArn != "") = true := by
    simpa using harn
  by_cases hser : CertificateProvider.getSerial cert.serialNumber = liveSerial
  · unfold CertificateProvider.Check
    simp [hdesc, hser, initialRun]
  · have hserb : (CertificateProvider.getSerial cert.serialNumber != liveSerial) = true := by
      simpa using hser
    unfold CertificateProvider.Check CertificateProvider.Create
    rcases hi : acmW.certImportResult with _ | arn
    · simp [hdesc, hserb, hser, hi, initialRun, harnb]
    · have harn2 := hecho arn hi
      simp [hdesc, hserb, hser, hi, initialRun, harnb, harn2]

/-- An ACM world whose live certificate reports a different serial and
whose import succeeds echoing the stored ARN. -/
def sampleAcmRenewWorld : AcmWorld :=
  { describeResult := DescribeCertificateResult.ok "aa:bb"
    certImportResult := ImportCertificateResult.ok "arn-1" }

/-- A status already storing certificate ARN "arn-1". -/
def sampleArnStatus : DistributionStatus :=
  { ready := false, endpoints := []
    cloudFront := { state := "Deployed", id := "D1", certificateArn := "arn-1" } }

/-- Witness for C7: a renewal pass (serial 0x0102 vs live "aa:bb") issues
exactly one import call carrying the stored ARN and leaves the stored ARN
unchanged. -/
theorem c7_certificate_renewal_witness :
    (CertificateProvider.Check sampleAcmRenewWorld { serialNumber := 258 }
      (initialRun sampleArnStatus)).1.calls =
      [RemoteCall.describeCertificate "arn-1",
       RemoteCall.importCertificate (some "arn-1")] ∧
    (CertificateProvider.Check sampleAcmRenewWorld { serialNumber := 258 }
      (initialRun sampleArnStatus)).1.status.cloudFront.certificateArn = "arn-1" := by
  have h := c7_certificate_renewal sampleAcmRenewWorld { serialNumber := 258 }
    sampleArnStatus "aa:bb" (by decide) rfl
    (by intro a ha; cases ha; rfl)
  refine ⟨?_, h.2⟩
  have h1 := h.1
  rw [h1]
  rfl

/-! ## Origin resolution (`OriginResolver`, pkg/resolver/origin.go)

This component belongs to the repository era whose origin spec holds
optional named/numbered port references and an optional target object
reference.  The Kubernetes lookups are modelled by a world carrying the
content of the named target object in the Distribution's namespace (Go's
`loadResource` ignores lookup errors, leaving zero values, which the world
models with empty lists). -/

/-- `ObjectReference` (distribution_types.go). -/
structure ObjectReference where
  kind : String
  name : String
deriving DecidableEq, Repr

/-- `ServicePort` (distribution_types.go): a port requested by name or
number. -/
structure ServicePortRef where
  name : String
  number : Int
deriving DecidableEq, Repr

/-- The origin spec of the origin-resolver era: optional target, optional
custom host, optional HTTP/HTTPS port references. -/
structure ResolverOriginSpec where
  target : Option ObjectReference
  host : String
  httpPort : Option ServicePortRef
  httpsPort : Option ServicePortRef
deriving DecidableEq, Repr

/-- `corev1.LoadBalancerIngress`: hostname and/or IP of one load-balancer
ingress entry. -/
structure LoadBalancerIngress where
  hostname : String
  ip : String
deriving DecidableEq, Repr

/-- `corev1.ServicePort`: a named port on a Service. -/
structure K8sServicePort where
  name : String
  port : Int
deriving DecidableEq, Repr

/-- The target object's content in the Distribution's namespace: the
load-balancer ingress list of the Service / Ingress named by the target
reference, and the Service's ports (all empty when the object is absent,
mirroring Go's ignored Get error). -/
structure TargetWorld where
  serviceIngress : List LoadBalancerIngress
  servicePorts : List K8sServicePort
  ingressIngress : List LoadBalancerIngress
deriving DecidableEq, Repr

/-- `ResolvedOrigin` (origin.go). -/
structure ResolvedOrigin where
  host : String
  httpPort : Int
  httpsPort : Int
deriving DecidableEq, Repr

namespace OriginResolver

/-- `resolveCustomHost` (origin.go). -/
def resolveCustomHost (origin : ResolverOriginSpec) (res : ResolvedOrigin) : ResolvedOrigin :=
  if origin.host != "" then { res with host := origin.host } else res

/-- `resolveCustomPort` (origin.go): an explicitly given port number takes
precedence and is immediately set. -/
def resolveCustomPort (port : Option ServicePortRef) (cur : Int) : Int :=
  match port with
  | some p => if p.number != 0 then p.number else cur
  | none => cur

/-- `setPort` (origin.go): whenever the named Service port matches the name
of the requested port, its value is used (note: with no still-empty check). -/
def setPort (svcPort : K8sServicePort) (portSpec : Option ServicePortRef) (cur : Int) : Int :=
  match portSpec with
  | some ps => if svcPort.name == ps.name then svcPort.port else cur
  | none => cur

/-- `resolveLoadBalancer` (origin.go): fills a still-empty host from the
first load-balancer ingress entry, preferring a hostname over a bare IP. -/
def resolveLoadBalancer (ingress : List LoadBalancerIngress) (res : ResolvedOrigin) :
    ResolvedOrigin :=
  if res.host != "" || ingress.isEmpty then res
  else
    match ingress with
    | [] => res
    | firstHost :: _ =>
      if firstHost.hostname != "" then { res with host := firstHost.hostname }
      else { res with host := firstHost.ip }

/-- `resolveService` (origin.go): host from the Service's load balancer,
ports from its named ports (each matching port overwrites in list order). -/
def resolveService (w : TargetWorld) (origin : ResolverOriginSpec) (res : ResolvedOrigin) :
    ResolvedOrigin :=
  let res := resolveLoadBalancer w.serviceIngress res
  w.servicePorts.foldl
    (fun r port =>
      { r with httpPort := setPort port origin.httpPort r.httpPort
               httpsPort := setPort port origin.httpsPort r.httpsPort })
    res

/-- `resolveIngress` (origin.go). -/
def resolveIngress (w : TargetWorld) (res : ResolvedOrigin) : ResolvedOrigin :=
  resolveLoadBalancer w.ingressIngress res

/-- `OriginResolver.Resolve` (origin.go).  Returns the resolved origin, an
error flag, and whether the target object was consulted. -/
def Resolve (w : TargetWorld) (origin : ResolverOriginSpec) :
    ResolvedOrigin × Bool × Bool :=
  let res : ResolvedOrigin := { host := "", httpPort := 0, httpsPort := 0 }
  let res := resolveCustomHost origin res
  let res := { res with httpPort := resolveCustomPort origin.httpPort res.httpPort }
  let res := { res with httpsPort := resolveCustomPort origin.httpsPort res.httpsPort }
  if res.host != "" && res.httpPort != 0 && res.httpsPort != 0 then (res, false, false)
  else
    let step : ResolvedOrigin × Bool :=
      match origin.target with
      | some t =>
        if t.kind == "Service" then (resolveService w origin res, true)
        else (resolveIngress w res, true)
      | none => (res, false)
    let res := step.1
    let res := if res.httpPort == 0 then { res with httpPort := 80 } else res
    let res := if res.httpsPort == 0 then { res with httpsPort := 443 } else res
    if res.host == "" then (res, true, step.2) else (res, false, step.2)

end OriginResolver

/-- The explicitly requested port number, or 0 when absent. -/
def portNumberOr0 (p : Option ServicePortRef) : Int :=
  match p with
  | some q => q.number
  | none => 0

/-- Whether a Service port matches the requested port reference by name. -/
def matchesSpec (p : K8sServicePort) (spec : Option ServicePortRef) : Bool :=
  match spec with
  | some ps => p.name == ps.name
  | none => false

/-- The last Service port whose name matches the requested port reference
(the Go loop applies matches in order, so the last one wins). -/
def lastMatch (spec : Option ServicePortRef) : List K8sServicePort → Option K8sServicePort
  | [] => none
  | p :: t =>
    match lastMatch spec t with
    | some q => some q
    | none => if matchesSpec p spec then some p else none

/-- The host the first load-balancer ingress entry offers: hostname
preferred over bare IP, empty when the list is empty. -/
def lbHost : List LoadBalancerIngress → String
  | [] => ""
  | firstHost :: _ => if firstHost.hostname != "" then firstHost.hostname else firstHost.ip

lemma setPort_eq (p : K8sServicePort) (spec : Option ServicePortRef) (cur : Int) :
    OriginResolver.setPort p spec cur = if matchesSpec p spec then p.port else cur := by
  cases spec <;> rfl

/-- The port-matching fold of `resolveService`, on one port field. -/
def foldPorts (spec : Option ServicePortRef) (ports : List K8sServicePort) (cur : Int) : Int :=
  ports.foldl (fun c p => OriginResolver.setPort p spec c) cur

lemma foldPorts_lastMatch (spec : Option ServicePortRef) (ports : List K8sServicePort)
    (cur : Int) :
    foldPorts spec ports cur =
      (match lastMatch spec ports with
       | some q => q.port
       | none => cur) := by
  induction ports generalizing cur with
  | nil => rfl
  | cons p t ih =>
    show foldPorts spec t (OriginResolver.setPort p spec cur) = _
    rw [ih]
    rcases hl : lastMatch spec t with _ | q
    · simp only [lastMatch, hl, setPort_eq]
      by_cases hm : matchesSpec p spec = true
      · simp [hm]
      · have hm2 : matchesSpec p spec = false := by
          revert hm
          cases matchesSpec p spec <;> simp
        simp [hm2]
    · simp [lastMatch, hl]

lemma resolveService_host (w : TargetWorld) (origin : ResolverOriginSpec)
    (res : ResolvedOrigin) :
    (OriginResolver.resolveService w origin res).host =
      (OriginResolver.resolveLoadBalancer w.serviceIngress res).host := by
  unfold OriginResolver.resolveService
  generalize OriginResolver.resolveLoadBalancer w.serviceIngress res = r
  induction w.servicePorts generalizing r with
  | nil => rfl
  | cons p t ih => exact ih _

lemma resolveService_http (w : TargetWorld) (origin : ResolverOriginSpec)
    (res : ResolvedOrigin) :
    (OriginResolver.resolveService w origin res).httpPort =
      foldPorts origin.httpPort w.servicePorts
        (OriginResolver.resolveLoadBalancer w.serviceIngress res).httpPort := by
  unfold OriginResolver.resolveService foldPorts
  generalize OriginResolver.resolveLoadBalancer w.serviceIngress res = r
  induction w.servicePorts generalizing r with
  | nil => rfl
  | cons p t ih => exact ih _

lemma resolveService_https (w : TargetWorld) (origin : ResolverOriginSpec)
    (res : ResolvedOrigin) :
    (OriginResolver.resolveService w origin res).httpsPort =
      foldPorts origin.httpsPort w.servicePorts
        (OriginResolver.resolveLoadBalancer w.serviceIngress res).httpsPort := by
  unfold OriginResolver.resolveService foldPorts
  generalize OriginResolver.resolveLoadBalancer w.serviceIngress res = r
  induction w.servicePorts generalizing r with
  | nil => rfl
  | cons p t ih => exact ih _

lemma resolveLoadBalancer_of_host_set (ingress : List LoadBalancerIngress)
    (res : ResolvedOrigin) (h : res.host ≠ "") :
    OriginResolver.resolveLoadBalancer ingress res = res := by
  unfold OriginResolver.resolveLoadBalancer
  have : (res.host != "") = true := by simpa using h
  simp [this]

lemma resolveLoadBalancer_of_host_empty (ingress : List LoadBalancerIngress)
    (res : ResolvedOrigin) (h : res.host = "") :
    OriginResolver.resolveLoadBalancer ingress res =
      (if ingress.isEmpty then res else { res with host := lbHost ingress }) := by
  unfold OriginResolver.resolveLoadBalancer
  rcases ingress with _ | ⟨f, t⟩
  · simp [h]
  · simp only [h, List.isEmpty_cons, Bool.or_false, lbHost]
    by_cases hf : (f.hostname != "") = true
    · simp [hf]
    · have : (f.hostname != "") = false := by
        revert hf
        cases f.hostname != "" <;> simp
      simp [this]

lemma resolveLoadBalancer_ports (ingress : List LoadBalancerIngress) (res : ResolvedOrigin) :
    (OriginResolver.resolveLoadBalancer ingress res).httpPort = res.httpPort ∧
    (OriginResolver.resolveLoadBalancer ingress res).httpsPort = res.httpsPort := by
  unfold OriginResolver.resolveLoadBalancer
  rcases ingress with _ | ⟨f, t⟩
  · simp
  · by_cases hh : (res.host != "") = true
    · simp [hh]
    · by_cases hf : (f.hostname != "") = true <;> simp [hh, hf]

lemma ResolvedOrigin.ext_of (a b : ResolvedOrigin) (h1 : a.host = b.host)
    (h2 : a.httpPort = b.httpPort) (h3 : a.httpsPort = b.httpsPort) : a = b := by
  cases a
  cases b
  simp_all

lemma resolveLoadBalancer_host (ingress : List LoadBalancerIngress) (res : ResolvedOrigin) :
    (OriginResolver.resolveLoadBalancer ingress res).host =
      (if res.host != "" then res.host else lbHost ingress) := by
  by_cases hh : res.host = ""
  · rw [resolveLoadBalancer_of_host_empty ingress res hh]
    rcases ingress with _ | ⟨f, t⟩
    · simp [hh, lbHost]
    · simp [hh]
  · rw [resolveLoadBalancer_of_host_set ingress res hh]
    have : (res.host != "") = true := by simpa using hh
    simp [this]

lemma resolveCustomHost_eq (origin : ResolverOriginSpec) :
    OriginResolver.resolveCustomHost origin { host := "", httpPort := 0, httpsPort := 0 } =
      { host := origin.host, httpPort := 0, httpsPort := 0 } := by
  unfold OriginResolver.resolveCustomHost
  by_cases h : origin.host = ""
  · simp [h]
  · have : (origin.host != "") = true := by simpa using h
    simp [this]

lemma resolveCustomPort_eq (p : Option ServicePortRef) :
    OriginResolver.resolveCustomPort p 0 = portNumberOr0 p := by
  rcases p with _ | q
  · rfl
  · unfold OriginResolver.resolveCustomPort portNumberOr0
    by_cases h : q.number = 0
    · simp [h]
    · have : (q.number != 0) = true := by simpa using h
      simp [this]

/-- Normal form of `OriginResolver.Resolve`: the explicit fields seed the
result; when not all three are filled the target (if any) contributes the
load-balancer host (only when the explicit host is empty) and, for a
Service, the name-matched ports (last match wins, overwriting explicit
numbers); the ports then default and an error is flagged exactly when the
host is still empty. -/
lemma Resolve_normal (w : TargetWorld) (origin : ResolverOriginSpec) :
    OriginResolver.Resolve w origin =
      (let base : ResolvedOrigin :=
        { host := origin.host, httpPort := portNumberOr0 origin.httpPort
          httpsPort := portNumberOr0 origin.httpsPort }
       if base.host != "" && base.httpPort != 0 && base.httpsPort != 0 then
         (base, false, false)
       else
         let st : ResolvedOrigin × Bool :=
           match origin.target with
           | some t =>
             if t.kind == "Service" then
               ({ host := if origin.host != "" then origin.host else lbHost w.serviceIngress
                  httpPort := foldPorts origin.httpPort w.servicePorts base.httpPort
                  httpsPort := foldPorts origin.httpsPort w.servicePorts base.httpsPort },
                true)
             else
               ({ host := if origin.host != "" then origin.host else lbHost w.ingressIngress
                  httpPort := base.httpPort, httpsPort := base.httpsPort }, true)
           | none => (base, false)
         let r1 := st.1
         let r1 := if r1.httpPort == 0 then { r1 with httpPort := 80 } else r1
         let r1 := if r1.httpsPort == 0 then { r1 with httpsPort := 443 } else r1
         if r1.host == "" then (r1, true, st.2) else (r1, false, st.2)) := by
  have hS : OriginResolver.resolveService w origin
      { host := origin.host, httpPort := portNumberOr0 origin.httpPort
        httpsPort := portNumberOr0 origin.httpsPort } =
      { host := if origin.host != "" then origin.host else lbHost w.serviceIngress
        httpPort := foldPorts origin.httpPort w.servicePorts (portNumberOr0 origin.httpPort)
        httpsPort :=
          foldPorts origin.httpsPort w.servicePorts (portNumberOr0 origin.httpsPort) } := by
    apply ResolvedOrigin.ext_of
    · rw [resolveService_host, resolveLoadBalancer_host]
    · rw [resolveService_http, (resolveLoadBalancer_ports _ _).1]
    · rw [resolveService_https, (resolveLoadBalancer_ports _ _).2]
  have hI : OriginResolver.resolveIngress w
      { host := origin.host, httpPort := portNumberOr0 origin.httpPort
        httpsPort := portNumberOr0 origin.httpsPort } =
      { host := if origin.host != "" then origin.host else lbHost w.ingressIngress
        httpPort := portNumberOr0 origin.httpPort
        httpsPort := portNumberOr0 origin.httpsPort } := by
    apply ResolvedOrigin.ext_of
    · rw [OriginResolver.resolveIngress, resolveLoadBalancer_host]
    · exact (resolveLoadBalancer_ports _ _).1
    · exact (resolveLoadBalancer_ports _ _).2
  unfold OriginResolver.Resolve
  simp only [resolveCustomHost_eq, resolveCustomPort_eq]
  rcases ht : origin.target with _ | t
  · simp [ht]
  · by_cases hk : (t.kind == "Service") = true
    · simp only [ht, hk, if_true, hS]
    · have hk2 : (t.kind == "Service") = false := by
        revert hk
        cases t.kind == "Service" <;> simp
      simp only [ht, hk2, Bool.false_eq_true, if_false, hI]

lemma ite_pair_flag (c : Bool) (r : ResolvedOrigin) (s : Bool) :
    (if c then (r, true, s) else (r, false, s)) = (r, c, s) := by
  cases c <;> simp

/-- Fully explicit form of `OriginResolver.Resolve`. -/
lemma Resolve_explicit (w : TargetWorld) (origin : ResolverOriginSpec) :
    OriginResolver.Resolve w origin =
      (if origin.host != "" && portNumberOr0 origin.httpPort != 0 &&
          portNumberOr0 origin.httpsPort != 0 then
        ({ host := origin.host, httpPort := portNumberOr0 origin.httpPort
           httpsPort := portNumberOr0 origin.httpsPort }, false, false)
       else
        let hostF : String :=
          if origin.host != "" then origin.host
          else
            match origin.target with
            | some t =>
              if t.kind == "Service" then lbHost w.serviceIngress else lbHost w.ingressIngress
            | none => ""
        let p1 : Int :=
          match origin.target with
          | some t =>
            if t.kind == "Service" then
              foldPorts origin.httpPort w.servicePorts (portNumberOr0 origin.httpPort)
            else portNumberOr0 origin.httpPort
          | none => portNumberOr0 origin.httpPort
        let p2 : Int :=
          match origin.target with
          | some t =>
            if t.kind == "Service" then
              foldPorts origin.httpsPort w.servicePorts (portNumberOr0 origin.httpsPort)
            else portNumberOr0 origin.httpsPort
          | none => portNumberOr0 origin.httpsPort
        let q1 := if p1 == 0 then (80 : Int) else p1
        let q2 := if p2 == 0 then (443 : Int) else p2
        ({ host := hostF, httpPort := q1, httpsPort := q2 }, (hostF == ""),
          origin.target.isSome)) := by
  rw [Resolve_normal]
  cases hc : (origin.host != "" && portNumberOr0 origin.httpPort != 0 &&
      portNumberOr0 origin.httpsPort != 0)
  · rcases ht : origin.target with _ | t
    · simp only [ht, hc]
      cases hp : (portNumberOr0 origin.httpPort == 0) <;>
      cases hq : (portNumberOr0 origin.httpsPort == 0) <;>
        by_cases hh : origin.host = "" <;>
          simp [hp, hq, hh, ite_pair_flag]
    · by_cases hk : (t.kind == "Service") = true
      · simp only [ht, hc, hk, if_true, Bool.false_eq_true, if_false]
        cases hp : (foldPorts origin.httpPort w.servicePorts
            (portNumberOr0 origin.httpPort) == 0) <;>
        cases hq : (foldPorts origin.httpsPort w.servicePorts
            (portNumberOr0 origin.httpsPort) == 0) <;>
          by_cases hh : origin.host = "" <;>
            cases hlb : (lbHost w.serviceIngress == "") <;>
              simp_all [ite_pair_flag]
      · have hk2 : (t.kind == "Service") = false := by
          revert hk
          cases t.kind == "Service" <;> simp
        simp only [ht, hc, hk2, Bool.false_eq_true, if_false]
        cases hp : (portNumberOr0 origin.httpPort == 0) <;>
        cases hq : (portNumberOr0 origin.httpsPort == 0) <;>
          by_cases hh : origin.host = "" <;>
            cases hlb : (lbHost w.ingressIngress == "") <;>
              simp_all [ite_pair_flag]
  · simp [hc]

lemma default_ne_zero (p d : Int) (hd : d ≠ 0) : (if p == 0 then d else p) ≠ 0 := by
  cases hp : p == 0
  · simpa [hp] using by simpa using hp
  · simpa [hp] using hd

/-- C5 fails as stated: with the host discovered from the Service's load
balancer, a Service port whose name matches the spec's requested HTTP port
name overwrites the explicitly-given port number 8080 with the Service's
9090 — `setPort` has no still-empty check. -/
theorem c5_counterexample :
    OriginResolver.Resolve
      { serviceIngress := [{ hostname := "lb.example.com", ip := "" }]
        servicePorts := [{ name := "web", port := 9090 }]
        ingressIngress := [] }
      { target := some { kind := "Service", name := "svc" }
        host := ""
        httpPort := some { name := "web", number := 8080 }
        httpsPort := none } =
      ({ host := "lb.example.com", httpPort := 9090, httpsPort := 443 }, false, true) ∧
    (9090 : Int) ≠ 8080 := by
  exact ⟨by decide, by decide⟩

/-- C5 (amended): explicit host and port numbers are applied first and
resolution returns without consulting the target once all three are
filled; an explicit host always wins; otherwise a present target fills a
still-empty host from its first load-balancer ingress entry (hostname
preferred over IP); for a Service target the named ports matched against
the spec's requested port names set the numeric ports whenever the names
match — overwriting even an explicitly-given number, the last match
winning — and a port with no name match keeps its explicit number or
defaults (both stated for the HTTP and the HTTPS port); an Ingress-like
target contributes no ports, so both ports keep their explicit number or
default; any port still unfilled defaults to 80 / 443 (so both ports are
always non-zero in the result); and an error is returned exactly when the
host is still empty at the end. -/
theorem c5_resolve_precedence (w : TargetWorld) (origin : ResolverOriginSpec) :
    (origin.host ≠ "" → portNumberOr0 origin.httpPort ≠ 0 →
      portNumberOr0 origin.httpsPort ≠ 0 →
      OriginResolver.Resolve w origin =
        ({ host := origin.host, httpPort := portNumberOr0 origin.httpPort
           httpsPort := portNumberOr0 origin.httpsPort }, false, false)) ∧
    (origin.host ≠ "" → (OriginResolver.Resolve w origin).1.host = origin.host) ∧
    (∀ t, origin.host = "" → origin.target = some t →
      (OriginResolver.Resolve w origin).1.host =
        lbHost (if t.kind == "Service" then w.serviceIngress else w.ingressIngress)) ∧
    ((OriginResolver.Resolve w origin).2.1 = true ↔
      (OriginResolver.Resolve w origin).1.host = "") ∧
    ((OriginResolver.Resolve w origin).1.httpPort ≠ 0 ∧
      (OriginResolver.Resolve w origin).1.httpsPort ≠ 0) ∧
    (∀ t q, origin.target = some t → t.kind = "Service" →
      (origin.host != "" && portNumberOr0 origin.httpPort != 0 &&
        portNumberOr0 origin.httpsPort != 0) = false →
      lastMatch origin.httpPort w.servicePorts = some q → q.port ≠ 0 →
      (OriginResolver.Resolve w origin).1.httpPort = q.port) ∧
    (∀ t, origin.target = some t → t.kind = "Service" →
      (origin.host != "" && portNumberOr0 origin.httpPort != 0 &&
        portNumberOr0 origin.httpsPort != 0) = false →
      lastMatch origin.httpPort w.servicePorts = none →
      (OriginResolver.Resolve w origin).1.httpPort =
        (if portNumberOr0 origin.httpPort == 0 then 80 else portNumberOr0 origin.httpPort)) ∧
    (origin.target = none →
      (origin.host != "" && portNumberOr0 origin.httpPort != 0 &&
        portNumberOr0 origin.httpsPort != 0) = false →
      (OriginResolver.Resolve w origin).1.httpPort =
        (if portNumberOr0 origin.httpPort == 0 then 80
         else portNumberOr0 origin.httpPort) ∧
      (OriginResolver.Resolve w origin).1.httpsPort =
        (if portNumberOr0 origin.httpsPort == 0 then 443
         else portNumberOr0 origin.httpsPort)) ∧
    (∀ t q, origin.target = some t → t.kind = "Service" →
      (origin.host != "" && portNumberOr0 origin.httpPort != 0 &&
        portNumberOr0 origin.httpsPort != 0) = false →
      lastMatch origin.httpsPort w.servicePorts = some q → q.port ≠ 0 →
      (OriginResolver.Resolve w origin).1.httpsPort = q.port) ∧
    (∀ t, origin.target = some t → t.kind = "Service" →
      (origin.host != "" && portNumberOr0 origin.httpPort != 0 &&
        portNumberOr0 origin.httpsPort != 0) = false →
      lastMatch origin.httpsPort w.servicePorts = none →
      (OriginResolver.Resolve w origin).1.httpsPort =
        (if portNumberOr0 origin.httpsPort == 0 then 443
         else portNumberOr0 origin.httpsPort)) ∧
    (∀ t, origin.target = some t → t.kind ≠ "Service" →
      (origin.host != "" && portNumberOr0 origin.httpPort != 0 &&
        portNumberOr0 origin.httpsPort != 0) = false →
      (OriginResolver.Resolve w origin).1.httpPort =
        (if portNumberOr0 origin.httpPort == 0 then 80
         else portNumberOr0 origin.httpPort) ∧
      (OriginResolver.Resolve w origin).1.httpsPort =
        (if portNumberOr0 origin.httpsPort == 0 then 443
         else portNumberOr0 origin.httpsPort)) := by
  refine ⟨?_, ?_, ?_, ?_, ?_, ?_, ?_, ?_, ?_, ?_, ?_⟩
  · intro hh hp hq
    have hcond : (origin.host != "" && portNumberOr0 origin.httpPort != 0 &&
        portNumberOr0 origin.httpsPort != 0) = true := by
      simp [hh, hp, hq]
    rw [Resolve_explicit]
    simp [hcond]
  · intro hh
    have hhb : (origin.host != "") = true := by simpa using hh
    rw [Resolve_explicit]
    cases hcond : (origin.host != "" && portNumberOr0 origin.httpPort != 0 &&
        portNumberOr0 origin.httpsPort != 0) <;>
      simp [hcond, hhb]
  · intro t hh ht
    have hcond : (origin.host != "" && portNumberOr0 origin.httpPort != 0 &&
        portNumberOr0 origin.httpsPort != 0) = false := by
      simp [hh]
    rw [Resolve_explicit]
    by_cases hk : (t.kind == "Service") = true
    · simp [hcond, ht, hk, hh]
    · have hk2 : (t.kind == "Service") = false := by
        revert hk
        cases t.kind == "Service" <;> simp
      simp [hcond, ht, hk2, hh]
  · rw [Resolve_explicit]
    cases hcond : (origin.host != "" && portNumberOr0 origin.httpPort != 0 &&
        portNumberOr0 origin.httpsPort != 0)
    · simp [hcond]
    · have hhb : (origin.host != "") = true := by
        revert hcond
        cases origin.host != "" <;> simp
      simp [hcond, hhb]
      simpa using hhb
  · rw [Resolve_explicit]
    cases hcond : (origin.host != "" && portNumberOr0 origin.httpPort != 0 &&
        portNumberOr0 origin.httpsPort != 0)
    · simp only [hcond, Bool.false_eq_true, if_false]
      constructor
      · exact default_ne_zero _ _ (by decide)
      · exact default_ne_zero _ _ (by decide)
    · have h1 : (portNumberOr0 origin.httpPort != 0) = true := by
        revert hcond
        cases origin.host != "" <;> cases portNumberOr0 origin.httpPort != 0 <;>
          cases portNumberOr0 origin.httpsPort != 0 <;> simp
      have h2 : (portNumberOr0 origin.httpsPort != 0) = true := by
        revert hcond
        cases origin.host != "" <;> cases portNumberOr0 origin.httpPort != 0 <;>
          cases portNumberOr0 origin.httpsPort != 0 <;> simp
      simp only [hcond, if_true]
      constructor
      · simpa using h1
      · simpa using h2
  · intro t q ht hk hcond hlast hq0
    have hkb : (t.kind == "Service") = true := by simp [hk]
    have hq0b : (q.port == 0) = false := by simpa using hq0
    rw [Resolve_explicit]
    simp [hcond, ht, hkb, foldPorts_lastMatch, hlast, hq0b]
  · intro t ht hk hcond hlast
    have hkb : (t.kind == "Service") = true := by simp [hk]
    rw [Resolve_explicit]
    simp only [hcond, Bool.false_eq_true, if_false, ht, hkb, if_true]
    rw [foldPorts_lastMatch, hlast]
  · intro ht hcond
    rw [Resolve_explicit]
    simp [hcond, ht]
  · intro t q ht hk hcond hlast hq0
    have hkb : (t.kind == "Service") = true := by simp [hk]
    have hq0b : (q.port == 0) = false := by simpa using hq0
    rw [Resolve_explicit]
    simp [hcond, ht, hkb, foldPorts_lastMatch, hlast, hq0b]
  · intro t ht hk hcond hlast
    have hkb : (t.kind == "Service") = true := by simp [hk]
    rw [Resolve_explicit]
    simp only [hcond, Bool.false_eq_true, if_false, ht, hkb, if_true]
    rw [foldPorts_lastMatch, hlast]
  · intro t ht hk hcond
    have hk2 : (t.kind == "Service") = false := by simp [hk]
    rw [Resolve_explicit]
    simp [hcond, ht, hk2]

/-- Witness for C5: a fully explicit origin resolves to exactly its given
host and ports without any target lookup and without error. -/
theorem c5_resolve_precedence_witness :
    OriginResolver.Resolve
      { serviceIngress := [], servicePorts := [], ingressIngress := [] }
      { target := some { kind := "Service", name := "svc" }
        host := "a.example.com"
        httpPort := some { name := "", number := 8080 }
        httpsPort := some { name := "", number := 8443 } } =
      ({ host := "a.example.com", httpPort := 8080, httpsPort := 8443 }, false, false) := by
  exact (c5_resolve_precedence
    { serviceIngress := [], servicePorts := [], ingressIngress := [] }
    { target := some { kind := "Service", name := "svc" }
      host := "a.example.com"
      httpPort := some { name := "", number := 8080 }
      httpsPort := some { name := "", number := 8443 } }).1
    (by decide) (by decide) (by decide)

/-! ## TLS-secret certificate resolution (`CertificateResolver`,
pkg/resolver, historical copy cited by the spec)

PEM-level byte handling is abstracted: a secret data field is modelled as
the list of PEM blocks it decodes to (empty when the field is absent or
empty, which Go's `getData` reports as an error), and each block carries
its type string and whether `x509.ParseCertificate` succeeds on it. -/

/-- One PEM block: its type line and whether it parses as an X.509
certificate. -/
structure PemBlock where
  blockType : String
  parsesAsCert : Bool
deriving DecidableEq, Repr

/-- The referenced secret as loaded from the cluster: its type (Go's zero
value "" when the secret does not exist), its name, and the PEM blocks of
its "tls.crt" and "tls.key" data fields. -/
structure TLSSecretWorld where
  secretType : String
  secretName : String
  crtBlocks : List PemBlock
  keyBlocks : List PemBlock
deriving DecidableEq, Repr

/-- The resolved certificate value (leaf + chain + key, carried opaquely). -/
structure ResolverCertificate where
  crt : List PemBlock
  key : List PemBlock
deriving DecidableEq, Repr

namespace CertificateResolver

/-- `CertificateResolver.load` (certificate_resolver.go): an absent secret
(zero-valued type) or a secret whose type is not `kubernetes.io/tls` is an
error. -/
def load (w : TLSSecretWorld) : Option String :=
  if w.secretType == "" then
    some ("Could not find the TLS secret " ++ w.secretName)
  else if w.secretType != "kubernetes.io/tls" then
    some ("TLS secret " ++ w.secretName ++ " has an invalid type")
  else none

/-- `CertificateResolver.parseCrt` (certificate_resolver.go): the error it
returns — the missing-data error, or the X.509 parse error of the first
PEM block of "tls.crt". -/
def parseCrt (w : TLSSecretWorld) : Option String :=
  match w.crtBlocks with
  | [] => some ("TLS secret " ++ w.secretName ++ " does not have the required data tls.crt")
  | b :: _ =>
    if b.parsesAsCert then none
    else some "asn1: structure error"

/-- `CertificateResolver.parseKey` (certificate_resolver.go): the error it
returns — the missing-data error, or the invalid-type error when the first
PEM block of "tls.key" is neither "RSA PRIVATE KEY" nor "PRIVATE KEY". -/
def parseKey (w : TLSSecretWorld) : Option String :=
  match w.keyBlocks with
  | [] => some ("TLS secret " ++ w.secretName ++ " does not have the required data tls.key")
  | b :: _ =>
    if b.blockType != "RSA PRIVATE KEY" && b.blockType != "PRIVATE KEY" then
      some ("TLS secret " ++ w.secretName ++ "s private key was invalid")
    else none

/-- `CertificateResolver.Resolve` (certificate_resolver.go): checks the
load error, then calls `parseCrt` and `parseKey` — whose return values the
source discards — and returns the resolved certificate with a nil error. -/
def Resolve (w : TLSSecretWorld) : Option ResolverCertificate × Option String :=
  match load w with
  | some e => (none, some e)
  | none =>
    let _crtErr := parseCrt w
    let _keyErr := parseKey w
    let resolved : ResolverCertificate := { crt := w.crtBlocks, key := w.keyBlocks }
    (some resolved, none)

end CertificateResolver

/-- A TLS-typed secret whose private key block has the unrecognized type
"EC PRIVATE KEY". -/
def sampleBadKeySecret : TLSSecretWorld :=
  { secretType := "kubernetes.io/tls"
    secretName := "tls-secret"
    crtBlocks := [{ blockType := "CERTIFICATE", parsesAsCert := true }]
    keyBlocks := [{ blockType := "EC PRIVATE KEY", parsesAsCert := false }] }

/-- C8 (code bug): on a well-typed TLS secret whose key PEM block has an
unrecognized type, `parseKey` computes the invalid-private-key error, yet
`Resolve` discards it and hands the caller a Certificate together with a
nil error — the callers of `parseCrt()` and `parseKey()` in `Resolve`
ignore their return values. -/
theorem c8_resolve_drops_parse_errors :
    CertificateResolver.parseKey sampleBadKeySecret =
      some "TLS secret tls-secrets private key was invalid" ∧
    (CertificateResolver.Resolve sampleBadKeySecret).2 = none ∧
    (CertificateResolver.Resolve sampleBadKeySecret).1 =
      some { crt := sampleBadKeySecret.crtBlocks, key := sampleBadKeySecret.keyBlocks } := by
  refine ⟨rfl, rfl, rfl⟩

lemma requeueIfNotReady_spec (e c : Bool) :
    requeueIfNotReady { requeue := e, requeueAfter := 0 } c =
      { requeue := e, requeueAfter := if !e && !c then 60 else 0 } := by
  unfold requeueIfNotReady
  cases e <;> cases c <;> simp

lemma reconcileProviders_result (ps : List ProviderM) (distro : Distribution)
    (certResolutionFailed : Bool)
    (hnb : (distro.spec.tls.isSome && certResolutionFailed) = false) :
    (reconcileProviders ps distro certResolutionFailed).result =
      { requeue := (reconcileProviders ps distro certResolutionFailed).errs.any id
        requeueAfter :=
          if !((reconcileProviders ps distro certResolutionFailed).errs.any id) &&
              !((reconcileProviders ps distro certResolutionFailed).newStatus.ready) then 60
          else 0 } := by
  unfold reconcileProviders
  simp only [hnb, Bool.false_eq_true, if_false]
  exact requeueIfNotReady_spec _ _

lemma deleteProviders_result (ps : List ProviderM) (distro : Distribution) :
    (deleteProviders ps distro).result =
      { requeue := (deleteProviders ps distro).errs.any id
        requeueAfter :=
          if !((deleteProviders ps distro).errs.any id) &&
              !((deleteProviders ps distro).allDeleted) then 60
          else 0 } := by
  unfold deleteProviders
  exact requeueIfNotReady_spec _ _

/-- C4 (amended): for every pass that reaches its provider loop — i.e.
certificate resolution, if attempted, succeeded — the result requests an
immediate requeue exactly when some provider returned an error, and the
1-minute RequeueAfter is set exactly when no provider errored and the
pass's condition (new status Ready for reconciliation, all-deleted for
deletion) is false; immediate requeue takes priority, and a converged
error-free pass requests no requeue at all.  (A reconciliation pass whose
certificate resolution fails returns an empty result instead — see the
counterexample.) -/
theorem c4_requeue_rule (ps : List ProviderM) (distro : Distribution)
    (certResolutionFailed : Bool)
    (hcert : distro.spec.tls.isSome = true → certResolutionFailed = false) :
    ((reconcileProviders ps distro certResolutionFailed).result.requeue = true ↔
      (reconcileProviders ps distro certResolutionFailed).errs.any id = true) ∧
    ((reconcileProviders ps distro certResolutionFailed).result.requeueAfter = 60 ↔
      ((reconcileProviders ps distro certResolutionFailed).errs.any id = false ∧
       (reconcileProviders ps distro certResolutionFailed).newStatus.ready = false)) ∧
    ((reconcileProviders ps distro certResolutionFailed).errs.any id = true →
      (reconcileProviders ps distro certResolutionFailed).result.requeueAfter = 0) ∧
    ((reconcileProviders ps distro certResolutionFailed).errs.any id = false →
      (reconcileProviders ps distro certResolutionFailed).newStatus.ready = true →
      (reconcileProviders ps distro certResolutionFailed).result =
        { requeue := false, requeueAfter := 0 }) ∧
    ((deleteProviders ps distro).result.requeue = true ↔
      (deleteProviders ps distro).errs.any id = true) ∧
    ((deleteProviders ps distro).result.requeueAfter = 60 ↔
      ((deleteProviders ps distro).errs.any id = false ∧
       (deleteProviders ps distro).allDeleted = false)) ∧
    ((deleteProviders ps distro).errs.any id = true →
      (deleteProviders ps distro).result.requeueAfter = 0) ∧
    ((deleteProviders ps distro).errs.any id = false →
      (deleteProviders ps distro).allDeleted = true →
      (deleteProviders ps distro).result = { requeue := false, requeueAfter := 0 }) := by
  have hnb : (distro.spec.tls.isSome && certResolutionFailed) = false := by
    cases hs : distro.spec.tls.isSome
    · simp
    · simp [hcert hs]
  have hr := reconcileProviders_result ps distro certResolutionFailed hnb
  have hd := deleteProviders_result ps distro
  refine ⟨?_, ?_, ?_, ?_, ?_, ?_, ?_, ?_⟩
  · rw [hr]
  · rw [hr]
    cases he : (reconcileProviders ps distro certResolutionFailed).errs.any id <;>
    cases hc : (reconcileProviders ps distro certResolutionFailed).newStatus.ready <;>
      simp [he, hc]
  · intro he
    rw [hr]
    simp [he]
  · intro he hc
    rw [hr]
    simp [he, hc]
  · rw [hd]
  · rw [hd]
    cases he : (deleteProviders ps distro).errs.any id <;>
    cases hc : (deleteProviders ps distro).allDeleted <;>
      simp [he, hc]
  · intro he
    rw [hd]
    simp [he]
  · intro he hc
    rw [hd]
    simp [he, hc]

/-- A Distribution with a TLS spec (so its pass runs certificate
resolution) and a stored CloudFront id. -/
def sampleTLSDistro : Distribution :=
  { meta := { uid := "uid-1", deletionRequested := false
              finalizers := ["cdn.redcoat.dev/finalizer"] }
    spec := { origin := { host := "origin.example.com", httpPort := 80, httpsPort := 443 }
              hosts := ["www.example.com"]
              tls := some { mode := "redirect", secretRef := "tls-secret" } }
    status := sampleStatus }

/-- C4 fails as stated: a reconciliation pass whose certificate resolution
fails has no provider error and ends not Ready, yet the engine returns an
empty result — neither an immediate requeue nor the claimed 1-minute
RequeueAfter. -/
theorem c4_counterexample :
    (reconcileProviders [] sampleTLSDistro true).errs = [] ∧
    (reconcileProviders [] sampleTLSDistro true).newStatus.ready = false ∧
    (reconcileProviders [] sampleTLSDistro true).result =
      { requeue := false, requeueAfter := 0 } := by
  exact ⟨rfl, rfl, rfl⟩

/-- Witness for C4: a converged error-free pass (no providers, no TLS)
requests no requeue at all. -/
theorem c4_requeue_rule_witness :
    (reconcileProviders [] sampleDeletingDistro false).result =
      { requeue := false, requeueAfter := 0 } := by
  exact (c4_requeue_rule [] sampleDeletingDistro false (fun _ => rfl)).2.2.2.1 rfl rfl

/-- Relation between the run entering a provider action and the run it
leaves behind: the action appends some list of observed live states, and
the resulting readiness is the incoming readiness conjoined with "every
newly observed state is Deployed". -/
def ReadyObsInv (run run' : ProviderRun) : Prop :=
  ∃ delta, run'.observed = run.observed ++ delta ∧
    run'.status.ready = (run.status.ready && delta.all (fun s => s == "Deployed"))

lemma readyObsInv_same {run run' : ProviderRun}
    (hobs : run'.observed = run.observed)
    (hready : run'.status.ready = run.status.ready) : ReadyObsInv run run' := by
  exact ⟨[], by simpa using hobs, by simpa using hready⟩

lemma readyObsInv_rfl (run : ProviderRun) : ReadyObsInv run run :=
  readyObsInv_same rfl rfl

lemma readyObsInv_trans {a b c : ProviderRun}
    (h1 : ReadyObsInv a b) (h2 : ReadyObsInv b c) : ReadyObsInv a c := by
  obtain ⟨d1, ho1, hr1⟩ := h1
  obtain ⟨d2, ho2, hr2⟩ := h2
  refine ⟨d1 ++ d2, ?_, ?_⟩
  · rw [ho2, ho1, List.append_assoc]
  · rw [hr2, hr1, List.all_append, Bool.and_assoc]

lemma readyObsInv_setStatus (d : RemoteDistribution) (run : ProviderRun) :
    ReadyObsInv run (DistributionProvider.setStatus d run) := by
  refine ⟨[d.status], rfl, ?_⟩
  simp [DistributionProvider.setStatus]

lemma readyObsInv_certCreate (w : AcmWorld) (run : ProviderRun) :
    ReadyObsInv run (CertificateProvider.Create w run).1 := by
  unfold CertificateProvider.Create
  rcases w.certImportResult <;> exact readyObsInv_same rfl rfl

lemma readyObsInv_certCheck (w : AcmWorld) (cert : ResolvedCertificate)
    (run : ProviderRun) :
    ReadyObsInv run (CertificateProvider.Check w cert run).1 := by
  unfold CertificateProvider.Check
  rcases hd : w.describeResult with _ | _ | s
  · simp only [hd]
    exact readyObsInv_trans (readyObsInv_same rfl rfl) (readyObsInv_certCreate w _)
  · simp only [hd]
    exact readyObsInv_same rfl rfl
  · simp only [hd]
    by_cases hs : (CertificateProvider.getSerial cert.serialNumber != s) = true
    · simp only [hs, if_true]
      exact readyObsInv_trans (readyObsInv_same rfl rfl) (readyObsInv_certCreate w _)
    · have hs2 : (CertificateProvider.getSerial cert.serialNumber != s) = false := by
        revert hs
        cases CertificateProvider.getSerial cert.serialNumber != s <;> simp
      simp only [hs2, Bool.false_eq_true, if_false]
      exact readyObsInv_same rfl rfl

lemma readyObsInv_certReconcile (w : AcmWorld) (cert : ResolvedCertificate)
    (run : ProviderRun) :
    ReadyObsInv run (CertificateProvider.Reconcile w cert run).1 := by
  unfold CertificateProvider.Reconcile
  by_cases h : (run.status.cloudFront.certificateArn != "") = true
  · simp only [h, if_true]
    exact readyObsInv_certCheck w cert run
  · have h2 : (run.status.cloudFront.certificateArn != "") = false := by
      revert h
      cases run.status.cloudFront.certificateArn != "" <;> simp
    simp only [h2, Bool.false_eq_true, if_false]
    exact readyObsInv_certCreate w run

lemma readyObsInv_load (w : CloudFrontWorld) (storedId : String) (run : ProviderRun) :
    ReadyObsInv run (DistributionProvider.load w storedId run).1 := by
  unfold DistributionProvider.load
  rcases hg : w.getResult with _ | _ | ⟨d, etag⟩
  · simp only [hg]
    exact readyObsInv_same rfl rfl
  · simp only [hg]
    exact readyObsInv_same rfl rfl
  · simp only [hg]
    exact readyObsInv_trans (readyObsInv_same rfl rfl) (readyObsInv_setStatus d _)

lemma readyObsInv_update (w : CloudFrontWorld) (desired : DistributionConfig)
    (currentId etag : String) (run : ProviderRun) :
    ReadyObsInv run (DistributionProvider.update w desired currentId etag run).1 := by
  unfold DistributionProvider.update
  rcases hu : w.updateResult with _ | ⟨d, etag2⟩
  · simp only [hu]
    exact readyObsInv_same rfl rfl
  · simp only [hu]
    exact readyObsInv_trans (readyObsInv_same rfl rfl) (readyObsInv_setStatus d _)

lemma readyObsInv_create (w : CloudFrontWorld) (cls : CloudFrontSpec)
    (distro : Distribution) (run : ProviderRun) :
    ReadyObsInv run (DistributionProvider.Create w cls distro run).1 := by
  unfold DistributionProvider.Create
  rcases hc : w.createResult with cid | _ | d
  · simp only [hc]
    exact readyObsInv_same rfl rfl
  · simp only [hc]
    exact readyObsInv_same rfl rfl
  · simp only [hc]
    exact readyObsInv_trans (readyObsInv_same rfl rfl) (readyObsInv_setStatus d _)

lemma readyObsInv_dpCheck (w : CloudFrontWorld) (cls : CloudFrontSpec)
    (distro : Distribution) (run : ProviderRun) :
    ReadyObsInv run (DistributionProvider.Check w cls distro run).1 := by
  unfold DistributionProvider.Check
  have hload := readyObsInv_load w distro.status.cloudFront.id run
  by_cases he : (DistributionProvider.load w distro.status.cloudFront.id run).2.2 = true
  · simp only [he, if_true]
    exact hload
  · have he2 : (DistributionProvider.load w distro.status.cloudFront.id run).2.2 = false := by
      revert he
      cases (DistributionProvider.load w distro.status.cloudFront.id run).2.2 <;> simp
    simp only [he2, Bool.false_eq_true, if_false]
    rcases hc : (DistributionProvider.load w distro.status.cloudFront.id run).2.1
      with _ | ⟨d, etag⟩
    · simp only [hc]
      exact readyObsInv_trans hload (readyObsInv_create w cls distro _)
    · simp only [hc]
      by_cases heq : (generateDistributionConfig cls distro
          (DistributionProvider.load w
            distro.status.cloudFront.id run).1.status.cloudFront.certificateArn true ==
          d.config) = true
      · simp only [heq, if_true]
        exact hload
      · have heq2 : (generateDistributionConfig cls distro
            (DistributionProvider.load w
              distro.status.cloudFront.id run).1.status.cloudFront.certificateArn true ==
            d.config) = false := by
          revert heq
          cases (generateDistributionConfig cls distro
            (DistributionProvider.load w
              distro.status.cloudFront.id run).1.status.cloudFront.certificateArn true ==
            d.config) <;> simp
        simp only [heq2, Bool.false_eq_true, if_false]
        exact readyObsInv_trans hload (readyObsInv_update w _ d.id etag _)

lemma readyObsInv_dpReconcile (w : CloudFrontWorld) (cls : CloudFrontSpec)
    (distro : Distribution) (run : ProviderRun) :
    ReadyObsInv run (DistributionProvider.Reconcile w cls distro run).1 := by
  unfold DistributionProvider.Reconcile
  by_cases h : (distro.status.cloudFront.id != "") = true
  · simp only [h, if_true]
    exact readyObsInv_dpCheck w cls distro run
  · have h2 : (distro.status.cloudFront.id != "") = false := by
      revert h
      cases distro.status.cloudFront.id != "" <;> simp
    simp only [h2, Bool.false_eq_true, if_false]
    exact readyObsInv_create w cls distro run

lemma readyObsInv_cfReconcile (acmW : AcmWorld) (cfW : CloudFrontWorld)
    (cls : DistributionClassSpec) (distro : Distribution)
    (cert : Option ResolvedCertificate) (run : ProviderRun) :
    ReadyObsInv run (CloudFrontProvider.Reconcile acmW cfW cls distro cert run).1 := by
  unfold CloudFrontProvider.Reconcile
  rcases cert with _ | c
  · exact readyObsInv_dpReconcile cfW _ distro run
  · have hacm := readyObsInv_certReconcile acmW c run
    by_cases he : (CertificateProvider.Reconcile acmW c run).2 = true
    · simp only [he, if_true]
      exact hacm
    · have he2 : (CertificateProvider.Reconcile acmW c run).2 = false := by
        revert he
        cases (CertificateProvider.Reconcile acmW c run).2 <;> simp
      simp only [he2, Bool.false_eq_true, if_false]
      exact readyObsInv_trans hacm (readyObsInv_dpReconcile cfW _ distro _)

lemma readyObsInv_dpDelete (w : CloudFrontWorld) (distro : Distribution)
    (run : ProviderRun) :
    ReadyObsInv run (DistributionProvider.Delete w distro run).1 := by
  unfold DistributionProvider.Delete
  have hload := readyObsInv_load w distro.status.cloudFront.id run
  by_cases he : (DistributionProvider.load w distro.status.cloudFront.id run).2.2 = true
  · simp only [he, if_true]
    exact hload
  · have he2 : (DistributionProvider.load w distro.status.cloudFront.id run).2.2 = false := by
      revert he
      cases (DistributionProvider.load w distro.status.cloudFront.id run).2.2 <;> simp
    simp only [he2, Bool.false_eq_true, if_false]
    rcases hc : (DistributionProvider.load w distro.status.cloudFront.id run).2.1
      with _ | ⟨d, etag⟩
    · simp only [hc]
      exact hload
    · simp only [hc]
      by_cases hen : d.config.enabled = true
      · simp only [hen, if_true]
        exact readyObsInv_trans hload (readyObsInv_update w _ d.id etag _)
      · have hen2 : d.config.enabled = false := by
          revert hen
          cases d.config.enabled <;> simp
        by_cases hip : (d.status == "InProgress") = true
        · simp only [hen2, Bool.false_eq_true, if_false, hip, if_true]
          exact hload
        · have hip2 : (d.status == "InProgress") = false := by
            revert hip
            cases d.status == "InProgress" <;> simp
          simp only [hen2, Bool.false_eq_true, if_false, hip2]
          cases hd : w.deleteOk
          · simp only [hd, Bool.false_eq_true, if_false]
            exact readyObsInv_trans hload (readyObsInv_same rfl rfl)
          · simp only [hd, if_true]
            exact readyObsInv_trans hload (readyObsInv_same rfl rfl)

lemma reconcileLoop_single_iff (p : ProviderM) (run0 : ProviderRun)
    (hready0 : run0.status.ready = true) (hobs0 : run0.observed = [])
    (hinv : ReadyObsInv run0 (p.reconcile run0).1) :
    (reconcileLoop [p] run0).1.status.ready = true ↔
      ((reconcileLoop [p] run0).2.all (fun e => e == false) = true ∧
       (reconcileLoop [p] run0).1.observed.all (fun s => s == "Deployed") = true) := by
  obtain ⟨delta, hobs, hready⟩ := hinv
  rw [hobs0] at hobs
  rw [hready0] at hready
  simp only [List.nil_append] at hobs
  simp only [Bool.true_and] at hready
  cases hw : p.wants
  · simp [reconcileLoop, hw, hobs0, hready0]
  · cases he : (p.reconcile run0).2
    · simp only [reconcileLoop, hw, if_true, he, Bool.false_eq_true, if_false]
      simp [hobs, hready]
    · simp only [reconcileLoop, hw, if_true, he]
      simp

lemma deleteLoop_single_ready (loaded : DistributionStatus) (p : ProviderM)
    (run0 : ProviderRun) (hready0 : run0.status.ready = false)
    (hinv : ReadyObsInv run0 (p.delete run0).1) :
    (deleteLoop loaded [p] run0).1.status.ready = false := by
  obtain ⟨delta, hobs, hready⟩ := hinv
  rw [hready0] at hready
  simp only [Bool.false_and] at hready
  cases hh : p.has loaded
  · simp [deleteLoop, hh, hready0]
  · simp [deleteLoop, hh, hready]

/-- C10 (amended): Ready is only ever weakened after seeding.  In a
reconciliation pass that reaches the provider loop (no TLS, or certificate
resolution succeeded), the engine seeds Ready := true, the CloudFront
provider conjoins `live state == "Deployed"` at every status refresh, and
a provider error forces Ready := false — so the final Ready is true iff
the participating provider reported no error and every live state it
observed was "Deployed".  Every deletion pass seeds Ready := false and it
stays false.  (A pass aborted by a failed certificate resolution writes
Ready := false unconditionally with no participating provider — see the
counterexample.) -/
theorem c10_ready_iff_deployed (acmW : AcmWorld) (cfW : CloudFrontWorld)
    (cls : DistributionClassSpec) (distro : Distribution)
    (cert : Option ResolvedCertificate) (certErr : Bool)
    (hcert : distro.spec.tls.isSome = true → certErr = false)
    (_hagree : cert.isSome = distro.spec.tls.isSome) :
    ((reconcileProviders [cloudFrontProviderM acmW cfW cls distro cert] distro
        certErr).newStatus.ready = true ↔
      ((reconcileProviders [cloudFrontProviderM acmW cfW cls distro cert] distro
          certErr).errs.all (fun e => e == false) = true ∧
       (reconcileProviders [cloudFrontProviderM acmW cfW cls distro cert] distro
          certErr).observed.all (fun s => s == "Deployed") = true)) ∧
    (deleteProviders [cloudFrontProviderM acmW cfW cls distro cert] distro).newStatus.ready
      = false := by
  have hnb : (distro.spec.tls.isSome && certErr) = false := by
    cases hs : distro.spec.tls.isSome
    · simp
    · simp [hcert hs]
  constructor
  · unfold reconcileProviders
    simp only [hnb, Bool.false_eq_true, if_false]
    exact reconcileLoop_single_iff (cloudFrontProviderM acmW cfW cls distro cert) _ rfl rfl
      (readyObsInv_cfReconcile acmW cfW cls distro cert _)
  · unfold deleteProviders
    exact deleteLoop_single_ready distro.status (cloudFrontProviderM acmW cfW cls distro cert)
      _ rfl (readyObsInv_dpDelete cfW distro _)

/-- C10 fails as stated: a non-deletion pass aborted by certificate
resolution failure ends with Ready = false although no participating
provider returned an error and no live-state observation differed from
"Deployed" (there were none). -/
theorem c10_counterexample :
    (reconcileProviders
      [cloudFrontProviderM sampleAcmRenewWorld sampleEnabledWorld sampleClass
        sampleTLSDistro (some { serialNumber := 258 })]
      sampleTLSDistro true).newStatus.ready = false ∧
    (reconcileProviders
      [cloudFrontProviderM sampleAcmRenewWorld sampleEnabledWorld sampleClass
        sampleTLSDistro (some { serialNumber := 258 })]
      sampleTLSDistro true).errs = [] ∧
    (reconcileProviders
      [cloudFrontProviderM sampleAcmRenewWorld sampleEnabledWorld sampleClass
        sampleTLSDistro (some { serialNumber := 258 })]
      sampleTLSDistro true).observed = [] := by
  exact ⟨rfl, rfl, rfl⟩

/-- Witness for C10: a concrete deletion pass ends with Ready = false. -/
theorem c10_ready_iff_deployed_witness :
    (deleteProviders
      [cloudFrontProviderM sampleAcmRenewWorld sampleEnabledWorld sampleClass
        sampleDeletingDistro none]
      sampleDeletingDistro).newStatus.ready = false := by
  exact (c10_ready_iff_deployed sampleAcmRenewWorld sampleEnabledWorld sampleClass
    sampleDeletingDistro none false (fun _ => rfl) rfl).2

lemma delete_calls_shape (w : CloudFrontWorld) (distro : Distribution) (run : ProviderRun) :
    ∃ l, (DistributionProvider.Delete w distro run).1.calls =
      run.calls ++ RemoteCall.getDistribution distro.status.cloudFront.id :: l := by
  unfold DistributionProvider.Delete DistributionProvider.load DistributionProvider.update
  rcases hg : w.getResult with _ | _ | ⟨d, etag⟩
  · exact ⟨[], by simp [hg]⟩
  · exact ⟨[], by simp [hg]⟩
  · by_cases hen : d.config.enabled = true
    · rcases hu : w.updateResult with _ | ⟨d2, etag2⟩
      · exact ⟨[RemoteCall.updateDistribution { d.config with enabled := false } d.id etag],
          by simp [hg, hen, hu, DistributionProvider.setStatus]⟩
      · exact ⟨[RemoteCall.updateDistribution { d.config with enabled := false } d.id etag],
          by simp [hg, hen, hu, DistributionProvider.setStatus]⟩
    · have hen2 : d.config.enabled = false := by
        revert hen
        cases d.config.enabled <;> simp
      by_cases hip : (d.status == "InProgress") = true
      · exact ⟨[], by simp [hg, hen2, hip, DistributionProvider.setStatus]⟩
      · have hip2 : (d.status == "InProgress") = false := by
          revert hip
          cases d.status == "InProgress" <;> simp
        cases hd : w.deleteOk
        · exact ⟨[RemoteCall.deleteDistribution d.id etag],
            by simp [hg, hen2, hip2, hd, DistributionProvider.setStatus]⟩
        · exact ⟨[RemoteCall.deleteDistribution d.id etag],
            by simp [hg, hen2, hip2, hd, DistributionProvider.setStatus]⟩

lemma delete_err_keeps_id (w : CloudFrontWorld) (distro : Distribution) (run : ProviderRun)
    (hwfg : ∀ d etag, w.getResult = GetDistributionResult.ok d etag → d.id ≠ "")
    (hrun : run.status.cloudFront.id ≠ "") :
    (DistributionProvider.Delete w distro run).2 = true →
    (DistributionProvider.Delete w distro run).1.status.cloudFront.id ≠ "" := by
  unfold DistributionProvider.Delete DistributionProvider.load DistributionProvider.update
  rcases hg : w.getResult with _ | _ | ⟨d, etag⟩
  · simp [hg]
  · simp only [hg]
    intro _
    simpa using hrun
  · have hid := hwfg d etag hg
    by_cases hen : d.config.enabled = true
    · rcases hu : w.updateResult with _ | ⟨d2, etag2⟩
      · simp only [hg, hu, hen, if_true]
        intro _
        simpa [DistributionProvider.setStatus] using hid
      · simp [hg, hu, hen, DistributionProvider.setStatus]
    · have hen2 : d.config.enabled = false := by
        revert hen
        cases d.config.enabled <;> simp
      by_cases hip : (d.status == "InProgress") = true
      · simp [hg, hen2, hip, DistributionProvider.setStatus]
      · have hip2 : (d.status == "InProgress") = false := by
          revert hip
          cases d.status == "InProgress" <;> simp
        cases hd : w.deleteOk
        · simp only [hg, hen2, Bool.false_eq_true, if_false, hip2, hd]
          intro _
          simpa [DistributionProvider.setStatus] using hid
        · simp [hg, hen2, hip2, hd, DistributionProvider.setStatus]

lemma reconcileDeletion_outcome (ps : List ProviderM) (distro : Distribution) :
    (reconcileDeletion ps distro).outcome = deleteProviders ps distro := by
  unfold reconcileDeletion
  by_cases h : (deleteProviders ps distro).allDeleted = true <;> simp [h]

lemma reconcileDeletion_persisted (ps : List ProviderM) (distro : Distribution) :
    (reconcileDeletion ps distro).finalizerPersisted =
      (deleteProviders ps distro).allDeleted := by
  unfold reconcileDeletion
  cases h : (deleteProviders ps distro).allDeleted <;> simp [h]

lemma reconcileDeletion_finalizers (ps : List ProviderM) (distro : Distribution) :
    (reconcileDeletion ps distro).finalizers =
      (if (deleteProviders ps distro).allDeleted then
        distro.meta.finalizers.filter (fun f => f != finalizerName)
      else distro.meta.finalizers) := by
  unfold reconcileDeletion
  cases h : (deleteProviders ps distro).allDeleted <;> simp [h]

/-- The pass-initial run of a deletion pass. -/
def deletionRun (distro : Distribution) : ProviderRun :=
  { status := { distro.status with ready := false }, calls := [], observed := [] }

lemma deleteProviders_allDeleted (ps : List ProviderM) (distro : Distribution) :
    (deleteProviders ps distro).allDeleted =
      (deleteLoop distro.status ps (deletionRun distro)).2.2 := rfl

lemma deleteProviders_calls (ps : List ProviderM) (distro : Distribution) :
    (deleteProviders ps distro).calls =
      (deleteLoop distro.status ps (deletionRun distro)).1.calls := rfl

lemma deleteProviders_errs (ps : List ProviderM) (distro : Distribution) :
    (deleteProviders ps distro).errs =
      (deleteLoop distro.status ps (deletionRun distro)).2.1 := rfl

lemma deleteProviders_newStatus (ps : List ProviderM) (distro : Distribution) :
    (deleteProviders ps distro).newStatus =
      (deleteLoop distro.status ps (deletionRun distro)).1.status := rfl

lemma deleteLoop_single (loaded : DistributionStatus) (p : ProviderM)
    (run0 : ProviderRun) :
    deleteLoop loaded [p] run0 =
      (if p.has loaded then
        ((p.delete run0).1, [(p.delete run0).2], !(p.has (p.delete run0).1.status))
      else (run0, [], true)) := by
  cases hh : p.has loaded <;> simp [deleteLoop, hh]

lemma mem_filter_ne_self (l : List String) :
    finalizerName ∉ l.filter (fun f => f != finalizerName) := by
  intro h
  have := List.of_mem_filter h
  simp at this

/-- C1: for a Distribution whose deletion has been requested and that
carries the finalizer, `Reconcile` runs the deletion pass; the provider's
Delete is invoked (a remote call is issued) exactly when its `Has` holds
on the loaded status; the finalizer is removed and the change persisted if
and only if, after the Delete calls, the provider's `Has` on the updated
status is false; and if the provider returned an error the finalizer is
left in place (an erroring Delete never clears the stored id, given that
remote fetches return a non-empty distribution id). -/
theorem c1_deletion_finalizer (acmW : AcmWorld) (cfW : CloudFrontWorld)
    (cls : DistributionClassSpec) (distro : Distribution)
    (cert : Option ResolvedCertificate) (certResolutionFailed : Bool)
    (hdel : distro.meta.deletionRequested = true)
    (hfin : finalizerName ∈ distro.meta.finalizers)
    (hwfg : ∀ d etag, cfW.getResult = GetDistributionResult.ok d etag → d.id ≠ "") :
    (DistributionReconciler.Reconcile [cloudFrontProviderM acmW cfW cls distro cert]
        distro certResolutionFailed =
      ReconcileAction.deletePass
        (reconcileDeletion [cloudFrontProviderM acmW cfW cls distro cert] distro)) ∧
    ((reconcileDeletion [cloudFrontProviderM acmW cfW cls distro cert]
        distro).outcome.calls ≠ [] ↔
      CloudFrontProvider.Has distro.status = true) ∧
    ((finalizerName ∉ (reconcileDeletion [cloudFrontProviderM acmW cfW cls distro cert]
          distro).finalizers ∧
      (reconcileDeletion [cloudFrontProviderM acmW cfW cls distro cert]
          distro).finalizerPersisted = true) ↔
      CloudFrontProvider.Has (reconcileDeletion [cloudFrontProviderM acmW cfW cls distro cert]
          distro).outcome.newStatus = false) ∧
    ((reconcileDeletion [cloudFrontProviderM acmW cfW cls distro cert]
        distro).outcome.errs.any id = true →
      finalizerName ∈ (reconcileDeletion [cloudFrontProviderM acmW cfW cls distro cert]
          distro).finalizers ∧
      (reconcileDeletion [cloudFrontProviderM acmW cfW cls distro cert]
          distro).finalizerPersisted = false) := by
  have hpd : (cloudFrontProviderM acmW cfW cls distro cert).delete (deletionRun distro) =
      DistributionProvider.Delete cfW distro (deletionRun distro) := rfl
  have hph : (cloudFrontProviderM acmW cfW cls distro cert).has = CloudFrontProvider.Has :=
    rfl
  have hloop := deleteLoop_single distro.status
    (cloudFrontProviderM acmW cfW cls distro cert) (deletionRun distro)
  rw [hpd, hph] at hloop
  refine ⟨?_, ?_, ?_, ?_⟩
  · unfold DistributionReconciler.Reconcile
    simp [hdel, hfin]
  · rw [reconcileDeletion_outcome, deleteProviders_calls, hloop]
    cases hhas : CloudFrontProvider.Has distro.status
    · simp [deletionRun]
    · simp only [if_true]
      obtain ⟨l, hl⟩ := delete_calls_shape cfW distro (deletionRun distro)
      simp only [deletionRun] at hl
      simp [deletionRun, hl]
  · rw [reconcileDeletion_outcome, deleteProviders_newStatus,
      reconcileDeletion_finalizers, reconcileDeletion_persisted,
      deleteProviders_allDeleted, hloop]
    cases hhas : CloudFrontProvider.Has distro.status
    · have hnew : CloudFrontProvider.Has (deletionRun distro).status = false := by
        simpa [CloudFrontProvider.Has, deletionRun] using hhas
      simp [hnew, mem_filter_ne_self]
    · simp only [if_true]
      cases had : CloudFrontProvider.Has
          (DistributionProvider.Delete cfW distro (deletionRun distro)).1.status
      · simp [had, mem_filter_ne_self]
      · simp [had, hfin]
  · rw [reconcileDeletion_outcome, deleteProviders_errs,
      reconcileDeletion_finalizers, reconcileDeletion_persisted,
      deleteProviders_allDeleted, hloop]
    cases hhas : CloudFrontProvider.Has distro.status
    · simp
    · simp only [if_true]
      intro herr
      have herr2 : (DistributionProvider.Delete cfW distro (deletionRun distro)).2 = true := by
        simpa using herr
      have hrun : (deletionRun distro).status.cloudFront.id ≠ "" := by
        simpa [CloudFrontProvider.Has, deletionRun] using hhas
      have hid := delete_err_keeps_id cfW distro (deletionRun distro) hwfg hrun herr2
      have had : CloudFrontProvider.Has
          (DistributionProvider.Delete cfW distro (deletionRun distro)).1.status = true := by
        simpa [CloudFrontProvider.Has] using hid
      simp [had, hfin]

/-- Witness for C1: the sample deleting Distribution stores a CloudFront
id, so its deletion pass invokes the provider's Delete (remote calls are
issued). -/
theorem c1_deletion_finalizer_witness :
    (reconcileDeletion
      [cloudFrontProviderM sampleAcmRenewWorld sampleEnabledWorld sampleClass
        sampleDeletingDistro none]
      sampleDeletingDistro).outcome.calls ≠ [] := by
  have h := c1_deletion_finalizer sampleAcmRenewWorld sampleEnabledWorld sampleClass
    sampleDeletingDistro none false rfl (by decide)
    (by
      intro d etag hres
      simp only [sampleEnabledWorld] at hres
      obtain ⟨h1, h2⟩ := GetDistributionResult.ok.inj hres
      rw [← h1]
      decide)
  exact h.2.1.mpr rfl
